import Mathlib

/-!
Shallow embedding of the steamgrid artwork-resolution pipeline
(`getGoogleImage`, `steamGridDBGetRequest`, `getSteamGridDBImage`,
`igdbPostRequest`, `getIGDBImage`, `tryDownload`, `getImageAlternatives`,
`DownloadImage`, and the credential handling of the batch loop in
`steamgrid.go`).

The network, the JSON decoder, the fuzzy sorter, the URL escaper and the
image-header decoders are external collaborators of this code; they are
modelled as a record of pure functions (`Oracle`).  Every HTTP request the
code issues is recorded in a trace (`List NetEvent`), so that statements of
the form "provider X is never queried" can be expressed as properties of
the trace.  Go errors are modelled as `Option String` (`none` = nil),
`[]byte` payloads as `String`, and a Go panic (index out of range) as a
`none` result.
-/

deriving instance DecidableEq for Except

/-- One byte-payload read.  Go code reads a response body with
`ioutil.ReadAll`, which can fail; the body is therefore an `Except`. -/
structure HttpResponse where
  statusCode : Nat
  status : String
  contentType : String
  urlPath : String
  body : Except String String
deriving DecidableEq, Repr

/-- One HTTP request issued by the code, as recorded in the trace.
The four constructors correspond to the four request shapes in the source:
a plain `http.Get`, the Google request carrying a User-Agent header, the
SteamGridDB request carrying an Authorization header, and the IGDB POSTs. -/
inductive NetEvent where
  | get (url : String)
  | getUA (url ua : String)
  | getAuth (url auth : String)
  | post (url body : String) (headers : List (String × String))
deriving DecidableEq, Repr

def NetEvent.isGet : NetEvent → Bool
  | .get _ => true
  | _ => false

def NetEvent.isUA : NetEvent → Bool
  | .getUA _ _ => true
  | _ => false

def NetEvent.isAuth : NetEvent → Bool
  | .getAuth _ _ => true
  | _ => false

def NetEvent.isPost : NetEvent → Bool
  | .post _ _ _ => true
  | _ => false

/-- `steamGridDBResponse.Data` entry (api/v2 schema). -/
structure SGDBData where
  id : Int
  score : Int
  style : String
  url : String
  thumb : String
deriving DecidableEq, Repr

/-- `steamGridDBResponse`. -/
structure SGDBResponse where
  success : Bool
  data : List SGDBData
deriving DecidableEq, Repr

/-- `steamGridDBSearchResponse.Data` entry. -/
structure SGDBSearchData where
  id : Int
  name : String
  verified : Bool
deriving DecidableEq, Repr

/-- `steamGridDBSearchResponse`. -/
structure SGDBSearchResponse where
  success : Bool
  data : List SGDBSearchData
deriving DecidableEq, Repr

def defaultSGDBData : SGDBData := { id := 0, score := 0, style := "", url := "", thumb := "" }

def defaultSGDBSearchData : SGDBSearchData := { id := 0, name := "", verified := false }

/-- `igdbGame`. -/
structure IgdbGame where
  id : Int
  cover : Int
  name : String
deriving DecidableEq, Repr

/-- `igdbCover`. -/
structure IgdbCover where
  id : Int
  imageID : String
deriving DecidableEq, Repr

/-- Modelled from the spec: the `Game` record (declared in repository code
outside the excerpted sources) — stable identifier, display name,
custom/native flag, and the mutable resolution outputs written by
`DownloadImage` (payload, extension, source label).  Exactly the fields the
excerpted code reads or writes. -/
structure Game where
  ID : String
  Name : String
  Custom : Bool
  ImageExt : String
  ImageSource : String
  CleanImageBytes : Option String
deriving DecidableEq, Repr

/-- External collaborators: the HTTP transport (one function per request
shape), `url.QueryEscape`, the regexp matcher for the two Google result
patterns (returning the first captured group), `json.Unmarshal` at each of
the five response shapes, `fuzzy.Sort`, and the three image-header
decoders (`webpanimation.GetInfo`, `apng.DecodeConfig`,
`image.DecodeConfig`), each returning detected (width, height). -/
structure Oracle where
  get : String → Except String HttpResponse
  getUA : String → String → Except String HttpResponse
  getAuth : String → String → Except String HttpResponse
  post : String → String → List (String × String) → Except String HttpResponse
  queryEscape : String → String
  googleFind : Nat → String → Option String
  unmarshalSGDB : String → Except String SGDBResponse
  unmarshalSGDBSearch : String → Except String SGDBSearchResponse
  fuzzySort : String → SGDBSearchResponse → SGDBSearchResponse
  unmarshalToken : String → Except String String
  unmarshalIGDBGames : String → Except String (List IgdbGame)
  unmarshalIGDBCovers : String → Except String (List IgdbCover)
  decodeWebp : String → Except String (Nat × Nat)
  decodeApng : String → Except String (Nat × Nat)
  decodeImage : String → Except String (Nat × Nat)

/-- Structural `strings.ToLower` (ASCII-level, as used for sort keys). -/
def goToLower (s : String) : String := String.mk (s.toList.map Char.toLower)

/-- Whether `needle` is an initial segment of `hay` (helper for
`strContains`). -/
def leadsWith : List Char → List Char → Bool
  | [], _ => true
  | _ :: _, [] => false
  | a :: as, b :: bs => a == b && leadsWith as bs

def hasSub (needle : List Char) : List Char → Bool
  | [] => needle.isEmpty
  | c :: rest => leadsWith needle (c :: rest) || hasSub needle rest

/-- `strings.Contains` for a non-empty substring (every use in the source
passes a non-empty literal). -/
def strContains (s sub : String) : Bool := hasSub sub.toList s.toList

/-- Split a character list at every occurrence of `sep` (structural
counterpart of `strings.Split` with a one-character separator, which is
the only separator the source uses). -/
def splitOnChar (sep : Char) : List Char → List (List Char)
  | [] => [[]]
  | c :: rest =>
    if c == sep then [] :: splitOnChar sep rest
    else
      match splitOnChar sep rest with
      | [] => [[c]]
      | h :: t => (c :: h) :: t

/-- `filepath.Ext`: the suffix beginning at the final dot in the final
slash-separated element of the path, empty if there is none. -/
def filepathExtAux : List Char → List Char → String
  | [], _ => ""
  | c :: rest, acc =>
    if c == '/' then ""
    else if c == '.' then String.mk ('.' :: acc)
    else filepathExtAux rest (c :: acc)

def filepathExt (p : String) : String := filepathExtAux p.toList.reverse []

/-! ### Web-search provider (`getGoogleImage`) -/

def googleSearchFormatURL (w h : Nat) : String :=
  "https://www.google.com.br/search?tbs=isz%3Aex%2Ciszw%3A" ++ toString w ++
    "%2Ciszh%3A" ++ toString h ++ "&tbm=isch&num=5&q="

def googleUserAgent : String :=
  "Mozilla/5.0 (Windows NT 6.3; WOW64) AppleWebKit/537.36 (KHTML, like Gecko) Chrome/39.0.2171.71 Safari/537.36"

/-- `getGoogleImage`: one GET of the search URL (size hardcoded to the old
banner format 460x215); the two result patterns are tried in order via the
oracle, the first captured group wins.  Returns the matched URL, or an
empty result when nothing matched. -/
def getGoogleImage (o : Oracle) (gameName : String) (artStyleExtensions : List String) :
    (String × Option String) × List NetEvent :=
  if gameName == "" then (("", none), [])
  else
    let url := googleSearchFormatURL 460 215 ++ o.queryEscape gameName
    ((match o.getUA url googleUserAgent with
      | .error e => ("", some e)
      | .ok resp =>
        match resp.body with
        | .error e => ("", some e)
        | .ok body =>
          match o.googleFind 0 body with
          | some m => (m, none)
          | none =>
            match o.googleFind 1 body with
            | some m => (m, none)
            | none => ("", none)),
      [NetEvent.getUA url googleUserAgent])

/-! ### Community-database provider (`getSteamGridDBImage`) -/

def steamGridDBBaseURL : String := "https://www.steamgriddb.com/api/v2"

/-- `steamGridDBGetRequest`: authorized GET; a 401 becomes the error
string "401", a 404 the error string "404", otherwise the body is read. -/
def steamGridDBGetRequest (o : Oracle) (url steamGridDBApiKey : String) :
    Except String String × List NetEvent :=
  ((match o.getAuth url ("Bearer " ++ steamGridDBApiKey) with
    | .error e => .error e
    | .ok response =>
      if response.statusCode == 401 then .error ("401")
      else if response.statusCode == 404 then .error ("404")
      else response.body),
    [NetEvent.getAuth url ("Bearer " ++ steamGridDBApiKey)])

/-- The per-style resource collection (lines 157-166; banners and covers
share the grids collection; an unrecognized suffix leaves the Go zero
value). -/
def sgdbBaseForStyle (ext1 : String) : String :=
  if ext1 == ".banner" then steamGridDBBaseURL ++ "/grids"
  else if ext1 == ".cover" then steamGridDBBaseURL ++ "/grids"
  else if ext1 == ".hero" then steamGridDBBaseURL ++ "/heroes"
  else if ext1 == ".logo" then steamGridDBBaseURL ++ "/logos"
  else ""

def sgdbDirectURL (game : Game) (artStyleExtensions : List String) : String :=
  sgdbBaseForStyle (artStyleExtensions.getD 1 "") ++ "/steam/" ++ game.ID ++
    artStyleExtensions.getD 3 ""

def sgdbAutocompleteURL (game : Game) (artStyleExtensions : List String) : String :=
  steamGridDBBaseURL ++ "/search/autocomplete/" ++ game.Name ++ artStyleExtensions.getD 3 ""

def sgdbGameURL (artStyleExtensions : List String) (gid : Int) : String :=
  sgdbBaseForStyle (artStyleExtensions.getD 1 "") ++ "/game/" ++ toString gid ++
    artStyleExtensions.getD 3 ""

/-- The authorization error produced at lines 187 and 194.  Note the
leading space, present in the source (`errors.New(" SteamGridDB ...")`). -/
def sgdbAuthErr : String := " SteamGridDB authorization token is missing or invalid"

/-- The error produced when the autocomplete response fails to parse
(line 202). -/
def sgdbSearchErr : String := "best search match doesn't has a requested type or style"

/-- Lines 225-239: unmarshal the grid response; on success with at least
one entry pick the first webm-thumbnailed entry when an
animated-before-static filter was requested, otherwise the first entry.
`none` means the iteration fell through to the next loop pass. -/
def sgdbFinish (o : Oracle) (animatedFirst : Bool) (body : String) :
    Option (String × Option String) :=
  match o.unmarshalSGDB body with
  | .error e => some ("", some e)
  | .ok r =>
    if r.success && decide (1 ≤ r.data.length) then
      if animatedFirst then
        match r.data.find? (fun d => strContains d.thumb ("webm")) with
        | some d => some (d.url, none)
        | none => some ((r.data.headD defaultSGDBData).url, none)
      else some ((r.data.headD defaultSGDBData).url, none)
    else none

/-- Lines 215-228 of the search fallback: re-query the per-game resource
collection with the fuzzily matched internal id and hand the body to the
shared finish (line 225). -/
def sgdbGamePhase (o : Oracle) (artStyleExtensions : List String)
    (steamGridDBApiKey : String) (animatedFirst : Bool) (gid : Int) :
    Option (String × Option String) × List NetEvent :=
  let q3 := steamGridDBGetRequest o (sgdbGameURL artStyleExtensions gid) steamGridDBApiKey
  ((match q3.1 with
    | .error e3 => some ("", some e3)
    | .ok body3 => sgdbFinish o animatedFirst body3), q3.2)

/-- Lines 205-213: the matched internal id — the head of the fuzzily
sorted data when the search succeeded with at least one entry, the
sentinel -1 otherwise. -/
def sgdbBestID (o : Oracle) (game : Game) (sr : SGDBSearchResponse) : Int :=
  if sr.success && decide (1 ≤ sr.data.length) then
    ((o.fuzzySort (goToLower game.Name) sr).data.headD defaultSGDBSearchData).id
  else -1

/-- Lines 190-228: search by name via the autocomplete endpoint, take the
fuzzily best match (or fail benignly when there is none), then
`sgdbGamePhase`. -/
def sgdbSearchPhase (o : Oracle) (game : Game) (artStyleExtensions : List String)
    (steamGridDBApiKey : String) (animatedFirst : Bool) :
    Option (String × Option String) × List NetEvent :=
  let q2 := steamGridDBGetRequest o (sgdbAutocompleteURL game artStyleExtensions) steamGridDBApiKey
  match q2.1 with
  | .error e2 =>
    ((if e2 == "401" then some ("", some sgdbAuthErr) else some ("", some e2)), q2.2)
  | .ok body2 =>
    match o.unmarshalSGDBSearch body2 with
    | .error _ => (some ("", some sgdbSearchErr), q2.2)
    | .ok sr =>
      if sgdbBestID o game sr == -1 then (some ("", none), q2.2)
      else
        let r := sgdbGamePhase o artStyleExtensions steamGridDBApiKey animatedFirst
          (sgdbBestID o game sr)
        (r.1, q2.2 ++ r.2)

/-- Lines 185-239 of one loop iteration, given the phase-A outcome `req1`
(with its trace `ev1`): 401 is mapped to the authorization message, 404
falls back to `sgdbSearchPhase`, any other error is returned as-is, and a
readable body is handed to `sgdbFinish`. -/
def sgdbIterationCore (o : Oracle) (game : Game) (artStyleExtensions : List String)
    (steamGridDBApiKey : String) (req1 : Except String String) (ev1 : List NetEvent) :
    Option (String × Option String) × List NetEvent :=
  let animatedFirst := strContains (sgdbDirectURL game artStyleExtensions) ("animated,static")
  match req1 with
  | .ok body => (sgdbFinish o animatedFirst body, ev1)
  | .error e =>
    if e == "401" then (some ("", some sgdbAuthErr), ev1)
    else if e == "404" then
      let s := sgdbSearchPhase o game artStyleExtensions steamGridDBApiKey animatedFirst
      (s.1, ev1 ++ s.2)
    else (some ("", some e), ev1)

/-- One pass of the loop body (lines 153-240): phase A queries by the
native identifier, except that custom games synthesize a 404 without any
request (lines 178-183). -/
def sgdbIteration (o : Oracle) (game : Game) (artStyleExtensions : List String)
    (steamGridDBApiKey : String) : Option (String × Option String) × List NetEvent :=
  if !game.Custom then
    let q1 := steamGridDBGetRequest o (sgdbDirectURL game artStyleExtensions) steamGridDBApiKey
    sgdbIterationCore o game artStyleExtensions steamGridDBApiKey q1.1 q1.2
  else
    sgdbIterationCore o game artStyleExtensions steamGridDBApiKey (.error ("404")) []

/-- `getSteamGridDBImage`: the loop `for i := 0; i < 3; i += 2` runs the
identical body twice (the loop variable is never read), so a fall-through
first pass is followed by one more identical pass before the benign empty
result is returned. -/
def getSteamGridDBImage (o : Oracle) (game : Game) (artStyleExtensions : List String)
    (steamGridDBApiKey : String) : (String × Option String) × List NetEvent :=
  match sgdbIteration o game artStyleExtensions steamGridDBApiKey with
  | (some r, ev) => (r, ev)
  | (none, ev1) =>
    match sgdbIteration o game artStyleExtensions steamGridDBApiKey with
    | (some r, ev2) => (r, ev1 ++ ev2)
    | (none, ev2) => (("", none), ev1 ++ ev2)

/-! ### Metadata-database provider (`getIGDBImage`) -/

def igdbImageURLFormat (imageID : String) : String :=
  "https://images.igdb.com/igdb/image/upload/t_720p/" ++ imageID ++ ".jpg"

def igdbGameURL : String := "https://api.igdb.com/v4/games"

def igdbCoverURL : String := "https://api.igdb.com/v4/covers"

def igdbGameBody (gameName : String) : String :=
  "fields name,cover; search \"" ++ gameName ++ "\";"

def igdbCoverBody (coverID : Int) : String :=
  "fields image_id; where id = " ++ toString coverID ++ ";"

def igdbTokenURL (IGDBClient IGDBSecret : String) : String :=
  "https://id.twitch.tv/oauth2/token?client_id=" ++ IGDBClient ++ "&client_secret=" ++
    IGDBSecret ++ "&grant_type=client_credentials"

/-- `igdbPostRequest`: a fresh client-credential token exchange on every
call (the request body is, as in the source, also sent to the token
endpoint), then the authorized POST.  No status code is ever checked. -/
def igdbPostRequest (o : Oracle) (url body IGDBSecret IGDBClient : String) :
    Except String String × List NetEvent :=
  let tURL := igdbTokenURL IGDBClient IGDBSecret
  match o.post tURL body [] with
  | .error e => (.error e, [NetEvent.post tURL body []])
  | .ok tResp =>
    match tResp.body with
    | .error e => (.error e, [NetEvent.post tURL body []])
    | .ok tBody =>
      match o.unmarshalToken tBody with
      | .error e => (.error e, [NetEvent.post tURL body []])
      | .ok tok =>
        let hs := [("Client-ID", IGDBClient), ("Authorization", "Bearer " ++ tok),
          ("Accept", "application/json")]
        match o.post url body hs with
        | .error e => (.error e, [NetEvent.post tURL body [], NetEvent.post url body hs])
        | .ok resp =>
          match resp.body with
          | .error e => (.error e, [NetEvent.post tURL body [], NetEvent.post url body hs])
          | .ok rb => (.ok rb, [NetEvent.post tURL body [], NetEvent.post url body hs])

/-- `getIGDBImage` (lines 312-344): search the game by name, fetch its
cover record, compose the image URL.  A transport error from either POST
is returned as an error, but an unparsable body or a missing cover yields
the benign empty result `("", nil)`. -/
def getIGDBImage (o : Oracle) (gameName IGDBSecret IGDBClient : String) :
    (String × Option String) × List NetEvent :=
  let q1 := igdbPostRequest o igdbGameURL (igdbGameBody gameName) IGDBSecret IGDBClient
  match q1.1 with
  | .error e => (("", some e), q1.2)
  | .ok body1 =>
    match o.unmarshalIGDBGames body1 with
    | .error _ => (("", none), q1.2)
    | .ok games =>
      match games with
      | [] => (("", none), q1.2)
      | g :: _ =>
        if g.cover == 0 then (("", none), q1.2)
        else
          let q2 := igdbPostRequest o igdbCoverURL (igdbCoverBody g.cover) IGDBSecret IGDBClient
          match q2.1 with
          | .error e => (("", some e), q1.2 ++ q2.2)
          | .ok body2 =>
            match o.unmarshalIGDBCovers body2 with
            | .error _ => (("", none), q1.2 ++ q2.2)
            | .ok covers =>
              match covers with
              | [] => (("", none), q1.2 ++ q2.2)
              | c :: _ => ((igdbImageURLFormat c.imageID, none), q1.2 ++ q2.2)

/-! ### Downloader (`tryDownload`) and Resolver (`getImageAlternatives`) -/

/-- `tryDownload`: a 404 is absence (nil response, nil error); any other
status of 400 or above is an explicit error; otherwise the live response
is returned. -/
def tryDownload (o : Oracle) (url : String) :
    (Option HttpResponse × Option String) × List NetEvent :=
  ((match o.get url with
    | .error e => (none, some e)
    | .ok response =>
      if response.statusCode == 404 then (none, none)
      else if 400 ≤ response.statusCode then
        (none, some ("Failed to download image " ++ url ++ ": " ++ response.status))
      else (some response, none)),
    [NetEvent.get url])

def akamaiURL (id ext2 : String) : String :=
  "https://steamcdn-a.akamaihd.net/steam/apps/" ++ id ++ "/" ++ ext2

def steamCdnURL (id ext2 : String) : String :=
  "cdn.akamai.steamstatic.com/steam/apps/" ++ id ++ "/" ++ ext2

/-- Lines 424-429: download whichever single candidate URL was produced;
only a non-error, non-nil response is returned together with the current
source label — everything else becomes `(nil, "", nil)`. -/
def giaFinal (o : Oracle) (url frm : String) :
    (Option HttpResponse × String × Option String) × List NetEvent :=
  let t := tryDownload o url
  ((if t.1.2.isNone && t.1.1.isSome then (t.1.1, frm, t.1.2) else (none, "", none)), t.2)

/-- Lines 415-422 then 424-429: the web-search stage.  The Go `err`
carried into this region is dead (always overwritten before any use), so
it is not threaded. -/
def giaGoogleStage (o : Oracle) (game : Game) (artStyle : String)
    (artStyleExtensions : List String) (skipGoogle steamGridDBOnly : Bool)
    (response0 : Option HttpResponse) (url frm : String) :
    (Option HttpResponse × String × Option String) × List NetEvent :=
  if !skipGoogle && artStyle == "Banner" && url == "" && !steamGridDBOnly then
    let g := getGoogleImage o game.Name artStyleExtensions
    match g.1.2 with
    | some e => ((response0, "search", some e), g.2)
    | none =>
      let r := giaFinal o g.1.1 ("search")
      (r.1, g.2 ++ r.2)
  else giaFinal o url frm

/-- Lines 406-413 (metadata-database stage) chained into the later
stages. -/
def giaIGDBStage (o : Oracle) (game : Game) (artStyle : String)
    (artStyleExtensions : List String) (IGDBSecret IGDBClient : String)
    (skipGoogle steamGridDBOnly : Bool) (response0 : Option HttpResponse)
    (url frm : String) :
    (Option HttpResponse × String × Option String) × List NetEvent :=
  if artStyle == "Cover" && IGDBClient != "" && IGDBSecret != "" && url == "" &&
      !steamGridDBOnly then
    let g := getIGDBImage o game.Name IGDBSecret IGDBClient
    match g.1.2 with
    | some e => ((response0, "IGDB", some e), g.2)
    | none =>
      let r := giaGoogleStage o game artStyle artStyleExtensions skipGoogle steamGridDBOnly
        response0 g.1.1 ("IGDB")
      (r.1, g.2 ++ r.2)
  else giaGoogleStage o game artStyle artStyleExtensions skipGoogle steamGridDBOnly
    response0 url frm

/-- Lines 397-404 (community-database stage) chained into the later
stages; `url` has just been initialized to the empty string, so the
`url == ""` half of the guard is literally true. -/
def giaSGDBStage (o : Oracle) (game : Game) (artStyle : String)
    (artStyleExtensions : List String) (steamGridDBApiKey IGDBSecret IGDBClient : String)
    (skipGoogle steamGridDBOnly : Bool) (response0 : Option HttpResponse) :
    (Option HttpResponse × String × Option String) × List NetEvent :=
  let url0 := ""
  if steamGridDBApiKey != "" && url0 == "" then
    let g := getSteamGridDBImage o game artStyleExtensions steamGridDBApiKey
    match g.1.2 with
    | some e => ((response0, "SteamGridDB", some e), g.2)
    | none =>
      let r := giaIGDBStage o game artStyle artStyleExtensions IGDBSecret IGDBClient
        skipGoogle steamGridDBOnly response0 g.1.1 ("SteamGridDB")
      (r.1, g.2 ++ r.2)
  else giaIGDBStage o game artStyle artStyleExtensions IGDBSecret IGDBClient
    skipGoogle steamGridDBOnly response0 url0 ("steam server")

/-- `getImageAlternatives` (lines 375-430): primary-CDN probes first
(two URL variants; in `onlyMissingArtwork` mode a success aborts the whole
resolution with `(nil, "", nil)`), then the three URL-producing stages,
then the final download. -/
def getImageAlternatives (o : Oracle) (game : Game) (artStyle : String)
    (artStyleExtensions : List String) (skipSteam : Bool)
    (steamGridDBApiKey IGDBSecret IGDBClient : String)
    (skipGoogle onlyMissingArtwork steamGridDBOnly : Bool) :
    (Option HttpResponse × String × Option String) × List NetEvent :=
  if !skipSteam && !steamGridDBOnly then
    let t1 := tryDownload o (akamaiURL game.ID (artStyleExtensions.getD 2 ""))
    if t1.1.2.isNone && t1.1.1.isSome then
      if onlyMissingArtwork then ((none, "", none), t1.2)
      else ((t1.1.1, "steam server", t1.1.2), t1.2)
    else
      let t2 := tryDownload o (steamCdnURL game.ID (artStyleExtensions.getD 2 ""))
      if t2.1.2.isNone && t2.1.1.isSome then
        if onlyMissingArtwork then ((none, "", none), t1.2 ++ t2.2)
        else ((t2.1.1, "steam server", t2.1.2), t1.2 ++ t2.2)
      else
        let r := giaSGDBStage o game artStyle artStyleExtensions steamGridDBApiKey
          IGDBSecret IGDBClient skipGoogle steamGridDBOnly t2.1.1
        (r.1, t1.2 ++ t2.2 ++ r.2)
  else
    giaSGDBStage o game artStyle artStyleExtensions steamGridDBApiKey IGDBSecret
      IGDBClient skipGoogle steamGridDBOnly none

/-! ### Validator / normalizer pieces of `DownloadImage` -/

/-- Lines 443-450: derive the raw extension — content-type subtype first
(`strings.Split(contentType, "/")[1]`, which panics when the non-empty
content type holds no slash: modelled as `none`), then the URL path
extension, then the literal default `"jpg"` (sic, without a dot). -/
def deriveExtRaw (contentType urlExt : String) : Option String :=
  if contentType != "" then
    match (splitOnChar '/' contentType.toList).get? 1 with
    | some sub => some ("." ++ String.mk sub)
    | none => none
  else if urlExt != "" then some urlExt
  else some ("jpg")

/-- Lines 452-458: the two fixed rewrites. -/
def extRewrite (e : String) : String :=
  if e == ".jpeg" then ".jpg"
  else if e == ".octet-stream" then ".png"
  else e

/-- `ioutil.ReadAll(response.Body)` with the error discarded
(`imageBytes, _ := ...`, line 460): a failed read is modelled as the
empty payload. -/
def readBody (r : HttpResponse) : String :=
  match r.body with
  | .ok b => b
  | .error _ => ""

/-- Lines 463-489: detect (width, height) — the WEBP header parse when the
content type mentions webp, otherwise the APNG header parse with the
generic raster parse as fallback. -/
def detectSize (o : Oracle) (contentType imageBytes : String) :
    Except String (Nat × Nat) :=
  if strContains contentType ("webp") then o.decodeWebp imageBytes
  else
    match o.decodeApng imageBytes with
    | .ok s => .ok s
    | .error _ => o.decodeImage imageBytes

/-- Lines 441-503 after a non-nil, non-error response: extension
normalization (mutating `ImageExt`), size detection, the two aspect
rejections, and only then the writes of `ImageSource` and
`CleanImageBytes`.  `none` models the Go panic inside the extension
derivation. -/
def downloadImageBody (o : Oracle) (game : Game) (artStyle frm : String)
    (resp : HttpResponse) : Option (Game × String × Option String) :=
  match deriveExtRaw resp.contentType (filepathExt resp.urlPath) with
  | none => none
  | some e0 =>
    let game1 := { game with ImageExt := extRewrite e0 }
    let imageBytes := readBody resp
    match detectSize o resp.contentType imageBytes with
    | .error e => some (game1, ("", some e))
    | .ok wh =>
      if artStyle == "Banner" && decide (wh.1 < wh.2) then some (game1, ("", none))
      else if artStyle == "Cover" && decide (wh.2 < wh.1) then some (game1, ("", none))
      else
        some ({ game1 with ImageSource := frm, CleanImageBytes := some imageBytes },
          (frm, none))

/-- `DownloadImage` (lines 435-503).  `gridDir` is accepted and, as in the
source, never used.  The result carries the possibly-mutated game record
alongside Go's `(string, error)` pair; `none` models the panic. -/
def DownloadImage (o : Oracle) (gridDir : String) (game : Game) (artStyle : String)
    (artStyleExtensions : List String) (skipSteam : Bool)
    (steamGridDBApiKey IGDBSecret IGDBClient : String)
    (skipGoogle onlyMissingArtwork steamGridDBOnly : Bool) :
    Option (Game × String × Option String) × List NetEvent :=
  let ga := getImageAlternatives o game artStyle artStyleExtensions skipSteam
    steamGridDBApiKey IGDBSecret IGDBClient skipGoogle onlyMissingArtwork steamGridDBOnly
  match ga.1.1, ga.1.2.2 with
  | some resp, none => (downloadImageBody o game artStyle ga.1.2.1 resp, ga.2)
  | _, _ => (some (game, ("", ga.1.2.2)), ga.2)

/-! ### Credential handling of the batch loop (`steamgrid.go` 227-234) -/

/-- The comparison string used by the caller at `steamgrid.go:228` — it
has no leading space, unlike `sgdbAuthErr`. -/
def callerAuthErrString : String := "SteamGridDB authorization token is missing or invalid"

/-- `steamgrid.go` lines 227-234: after `DownloadImage` returns, the api
key is cleared exactly when the returned error text equals
`callerAuthErrString`. -/
def updatedApiKey (steamGridDBApiKey : String) (err : Option String) : String :=
  match err with
  | some e => if e == callerAuthErrString then "" else steamGridDBApiKey
  | none => steamGridDBApiKey

/-! ### Concrete fixtures for witnesses and counterexamples -/

def extsBanner : List String :=
  ["", ".banner", "header.jpg",
    "?styles=alternate&types=static&nsfw=false&humor=false&dimensions=460x215,920x430"]

def extsCover : List String :=
  ["p", ".cover", "library_600x900_2x.jpg",
    "?styles=alternate&types=static&nsfw=false&humor=false&dimensions=600x900,342x482,660x930"]

def extsHero : List String :=
  ["_hero", ".hero", "library_hero.jpg",
    "?styles=alternate&types=static&nsfw=false&humor=false&dimensions=1920x620,3840x1240,1600x650"]

def gameA : Game :=
  { ID := "42", Name := "Portal", Custom := false, ImageExt := "", ImageSource := "",
    CleanImageBytes := none }

def gameCustom : Game := { gameA with ID := "99", Custom := true }

def resp200 (ct path body : String) : HttpResponse :=
  { statusCode := 200, status := "200 OK", contentType := ct, urlPath := path,
    body := .ok body }

def resp404 : HttpResponse :=
  { statusCode := 404, status := "404 Not Found", contentType := "", urlPath := "",
    body := .ok "" }

def resp401 : HttpResponse :=
  { statusCode := 401, status := "401 Unauthorized", contentType := "", urlPath := "",
    body := .ok "" }

def resp500 : HttpResponse :=
  { statusCode := 500, status := "500 Internal Server Error", contentType := "",
    urlPath := "", body := .ok "" }

/-- A collaborator record where every external call fails or is empty. -/
def baseOracle : Oracle :=
  { get := fun _ => .error ("no network")
    getUA := fun _ _ => .error ("no network")
    getAuth := fun _ _ => .error ("no network")
    post := fun _ _ _ => .error ("no network")
    queryEscape := fun s => s
    googleFind := fun _ _ => none
    unmarshalSGDB := fun _ => .error ("unmarshal error")
    unmarshalSGDBSearch := fun _ => .error ("unmarshal error")
    fuzzySort := fun _ r => r
    unmarshalToken := fun _ => .error ("unmarshal error")
    unmarshalIGDBGames := fun _ => .error ("unmarshal error")
    unmarshalIGDBCovers := fun _ => .error ("unmarshal error")
    decodeWebp := fun _ => .error ("decode error")
    decodeApng := fun _ => .error ("decode error")
    decodeImage := fun _ => .error ("decode error") }

/-- Every plain GET answers 404. -/
def oracle404 : Oracle := { baseOracle with get := fun _ => .ok resp404 }

/-- The community database answers 401 everywhere. -/
def oracle401 : Oracle := { oracle404 with getAuth := fun _ _ => .ok resp401 }

/-- The primary CDN long-form variant for `gameA`/Banner succeeds. -/
def oracleSteamOK : Oracle :=
  { baseOracle with
    get := fun u =>
      if u == akamaiURL "42" "header.jpg" then
        .ok (resp200 "image/jpeg" "/steam/apps/42/header.jpg" "IMG")
      else .ok resp404 }

/-- The community database yields the candidate `http://img`, whose final
download then answers 500. -/
def oracleC4 : Oracle :=
  { baseOracle with
    getAuth := fun _ _ => .ok (resp200 "" "" "SGDBBODY")
    unmarshalSGDB := fun _ =>
      .ok { success := true, data := [{ defaultSGDBData with url := "http://img" }] }
    get := fun _ => .ok resp500 }

/-- The community database answers a parseable response with no usable
result, so the loop body falls through. -/
def oracleC6 : Oracle :=
  { oracle404 with
    getAuth := fun _ _ => .ok (resp200 "" "" "EMPTY")
    unmarshalSGDB := fun _ => .ok { success := true, data := [] } }

/-- IGDB transport succeeds but the games response body is malformed. -/
def oracleC9 : Oracle :=
  { baseOracle with
    post := fun _ _ _ => .ok (resp200 "" "" "IGDBBODY")
    unmarshalToken := fun _ => .ok ("tok")
    unmarshalIGDBGames := fun _ => .error ("malformed games response") }

/-- The primary CDN hands back an octet-stream Cover candidate whose
detected size is landscape (300x200), so validation rejects it. -/
def oracleC10 : Oracle :=
  { baseOracle with
    get := fun u =>
      if u == akamaiURL "42" "library_600x900_2x.jpg" then
        .ok (resp200 "image/octet-stream" "" "BYTES")
      else .ok resp404
    decodeApng := fun _ => .ok (300, 200) }

def gameC10 : Game := { gameA with ImageExt := ".jpg" }

/-- The primary CDN hands back a WEBP Cover candidate of detected size
600x900. -/
def oracleW7 : Oracle :=
  { baseOracle with
    get := fun u =>
      if u == akamaiURL "42" "library_600x900_2x.jpg" then
        .ok (resp200 "image/webp" "" "WEBPBYTES")
      else .ok resp404
    decodeWebp := fun _ => .ok (600, 900) }

/-- The community database yields the candidate `http://x`; the final
download then answers 404. -/
def oracleW1 : Oracle :=
  { oracle404 with
    getAuth := fun _ _ => .ok (resp200 "" "" "B")
    unmarshalSGDB := fun _ =>
      .ok { success := true, data := [{ defaultSGDBData with url := "http://x" }] } }

/-- The community-database transport fails outright (neither 401 nor
404). -/
def oracleC4w : Oracle :=
  { baseOracle with getAuth := fun _ _ => .error ("connection refused") }

/-- IGDB transport succeeds, the games response parses to one game with a
cover reference, but the covers response body is malformed. -/
def oracleC9b : Oracle :=
  { baseOracle with
    post := fun _ _ _ => .ok (resp200 "" "" "IGDBBODY")
    unmarshalToken := fun _ => .ok ("tok")
    unmarshalIGDBGames := fun _ => .ok [{ id := 5, cover := 7, name := "Portal" }]
    unmarshalIGDBCovers := fun _ => .error ("malformed covers response") }

/-- The primary CDN hands back a WEBP Banner candidate of detected size
600x900 (portrait, so Banner validation rejects it). -/
def oracleW7b : Oracle :=
  { baseOracle with
    get := fun u =>
      if u == akamaiURL "42" "header.jpg" then .ok (resp200 "image/webp" "" "WEBPB")
      else .ok resp404
    decodeWebp := fun _ => .ok (600, 900) }

/-! ## Trace lemmas -/

theorem tryDownload_snd (o : Oracle) (url : String) :
    (tryDownload o url).2 = [NetEvent.get url] := rfl

theorem steamGridDBGetRequest_snd (o : Oracle) (url k : String) :
    (steamGridDBGetRequest o url k).2 = [NetEvent.getAuth url ("Bearer " ++ k)] := rfl

theorem giaFinal_snd (o : Oracle) (url frm : String) :
    (giaFinal o url frm).2 = [NetEvent.get url] := rfl

theorem sgdbGamePhase_snd (o : Oracle) (exts : List String) (k : String)
    (af : Bool) (gid : Int) :
    (sgdbGamePhase o exts k af gid).2
      = [NetEvent.getAuth (sgdbGameURL exts gid) ("Bearer " ++ k)] := rfl

theorem getGoogleImage_trace_ua (o : Oracle) (n : String) (exts : List String) :
    ∀ e ∈ (getGoogleImage o n exts).2, e.isUA = true := by
  intro e he
  unfold getGoogleImage at he
  split at he
  · simp at he
  · simp at he
    subst he; rfl

theorem getGoogleImage_trace_len (o : Oracle) (n : String) (exts : List String) :
    (getGoogleImage o n exts).2.length ≤ 1 := by
  unfold getGoogleImage
  split <;> simp

theorem sgdbSearchPhase_trace_auth (o : Oracle) (g : Game) (exts : List String)
    (k : String) (af : Bool) :
    ∀ e ∈ (sgdbSearchPhase o g exts k af).2, e.isAuth = true := by
  intro e he
  unfold sgdbSearchPhase at he
  rcases h2 : (steamGridDBGetRequest o (sgdbAutocompleteURL g exts) k).1 with e2 | b2 <;>
    simp only [h2, steamGridDBGetRequest_snd] at he
  · simp at he
    subst he; rfl
  · rcases h3 : o.unmarshalSGDBSearch b2 with e3 | sr <;> simp only [h3] at he
    · simp at he
      subst he; rfl
    · by_cases hg : (sgdbBestID o g sr == -1) = true <;>
        simp only [hg, if_true, if_false, Bool.false_eq_true,
          steamGridDBGetRequest_snd, sgdbGamePhase_snd, List.mem_append,
          List.mem_singleton] at he
      · subst he; rfl
      · rcases he with he | he <;> (subst he; rfl)

theorem sgdbSearchPhase_trace_len (o : Oracle) (g : Game) (exts : List String)
    (k : String) (af : Bool) :
    (sgdbSearchPhase o g exts k af).2.length ≤ 2 := by
  unfold sgdbSearchPhase
  rcases h2 : (steamGridDBGetRequest o (sgdbAutocompleteURL g exts) k).1 with e2 | b2 <;>
    simp only [h2, steamGridDBGetRequest_snd]
  · simp
  · rcases h3 : o.unmarshalSGDBSearch b2 with e3 | sr <;> simp only [h3]
    · simp
    · by_cases hg : (sgdbBestID o g sr == -1) = true <;>
        simp [hg, steamGridDBGetRequest_snd, sgdbGamePhase_snd]

theorem sgdbIterationCore_trace_auth (o : Oracle) (g : Game) (exts : List String)
    (k : String) (req1 : Except String String) (ev1 : List NetEvent)
    (h1 : ∀ e ∈ ev1, e.isAuth = true) :
    ∀ e ∈ (sgdbIterationCore o g exts k req1 ev1).2, e.isAuth = true := by
  intro e he
  unfold sgdbIterationCore at he
  rcases req1 with e1 | body
  · simp only at he
    split at he
    · exact h1 e he
    · split at he
      · simp only [List.mem_append] at he
        rcases he with he | he
        · exact h1 e he
        · exact sgdbSearchPhase_trace_auth o g exts k _ e he
      · exact h1 e he
  · exact h1 e he

theorem sgdbIterationCore_trace_len (o : Oracle) (g : Game) (exts : List String)
    (k : String) (req1 : Except String String) (ev1 : List NetEvent) :
    (sgdbIterationCore o g exts k req1 ev1).2.length ≤ ev1.length + 2 := by
  unfold sgdbIterationCore
  rcases req1 with e1 | body
  · simp only
    split
    · simp
    · split
      · simpa using Nat.add_le_add_left (sgdbSearchPhase_trace_len o g exts k _) ev1.length
      · simp
  · simp

theorem sgdbIteration_trace_auth (o : Oracle) (g : Game) (exts : List String)
    (k : String) :
    ∀ e ∈ (sgdbIteration o g exts k).2, e.isAuth = true := by
  unfold sgdbIteration
  split
  · refine sgdbIterationCore_trace_auth o g exts k _ _ ?_
    rw [steamGridDBGetRequest_snd]
    intro e he
    simp at he
    subst he; rfl
  · refine sgdbIterationCore_trace_auth o g exts k _ _ ?_
    intro e he
    simp at he

theorem sgdbIteration_trace_len (o : Oracle) (g : Game) (exts : List String)
    (k : String) :
    (sgdbIteration o g exts k).2.length ≤ 3 := by
  unfold sgdbIteration
  split
  · have h := sgdbIterationCore_trace_len o g exts k
      (steamGridDBGetRequest o (sgdbDirectURL g exts) k).1
      (steamGridDBGetRequest o (sgdbDirectURL g exts) k).2
    rw [steamGridDBGetRequest_snd] at h
    simpa using h
  · have h := sgdbIterationCore_trace_len o g exts k (.error ("404")) []
    simp at h
    omega

theorem getSteamGridDBImage_trace_auth (o : Oracle) (g : Game) (exts : List String)
    (k : String) :
    ∀ e ∈ (getSteamGridDBImage o g exts k).2, e.isAuth = true := by
  intro e he
  have ha := sgdbIteration_trace_auth o g exts k
  unfold getSteamGridDBImage at he
  rcases hit : sgdbIteration o g exts k with ⟨r, ev⟩
  rw [hit] at he ha
  rcases r with _ | r <;> simp only [List.mem_append] at he
  · rcases he with he | he <;> exact ha e he
  · exact ha e he

theorem getSteamGridDBImage_trace_len (o : Oracle) (g : Game) (exts : List String)
    (k : String) :
    (getSteamGridDBImage o g exts k).2.length ≤ 6 := by
  have hl := sgdbIteration_trace_len o g exts k
  unfold getSteamGridDBImage
  rcases hit : sgdbIteration o g exts k with ⟨r, ev⟩
  rw [hit] at hl
  rcases r with _ | r <;> simp only [List.length_append] <;> simp at hl <;> omega

theorem igdbPostRequest_trace_post (o : Oracle) (u b s c : String) :
    ∀ e ∈ (igdbPostRequest o u b s c).2, e.isPost = true := by
  intro e he
  unfold igdbPostRequest at he
  rcases h1 : o.post (igdbTokenURL c s) b [] with e1 | t1 <;> simp only [h1] at he
  · simp at he; subst he; rfl
  · rcases h2 : t1.body with e2 | tb <;> simp only [h2] at he
    · simp at he; subst he; rfl
    · rcases h3 : o.unmarshalToken tb with e3 | tok <;> simp only [h3] at he
      · simp at he; subst he; rfl
      · rcases h4 : o.post u b [("Client-ID", c), ("Authorization", "Bearer " ++ tok),
            ("Accept", "application/json")] with e4 | r4 <;> simp only [h4] at he
        · simp at he
          rcases he with he | he <;> (subst he; rfl)
        · rcases h5 : r4.body with e5 | rb <;> simp only [h5] at he <;> simp at he <;>
            rcases he with he | he <;> (subst he; rfl)

theorem igdbPostRequest_trace_len (o : Oracle) (u b s c : String) :
    (igdbPostRequest o u b s c).2.length ≤ 2 := by
  unfold igdbPostRequest
  rcases h1 : o.post (igdbTokenURL c s) b [] with e1 | t1 <;> simp only [h1]
  · simp
  · rcases h2 : t1.body with e2 | tb <;> simp only [h2]
    · simp
    · rcases h3 : o.unmarshalToken tb with e3 | tok <;> simp only [h3]
      · simp
      · rcases h4 : o.post u b [("Client-ID", c), ("Authorization", "Bearer " ++ tok),
            ("Accept", "application/json")] with e4 | r4 <;> simp only [h4]
        · simp
        · rcases h5 : r4.body with e5 | rb <;> simp only [h5] <;> simp

theorem getIGDBImage_trace_post (o : Oracle) (n s c : String) :
    ∀ e ∈ (getIGDBImage o n s c).2, e.isPost = true := by
  intro e he
  unfold getIGDBImage at he
  rcases h1 : igdbPostRequest o igdbGameURL (igdbGameBody n) s c with ⟨r1, t1⟩
  have hp1 := igdbPostRequest_trace_post o igdbGameURL (igdbGameBody n) s c
  rw [h1] at he hp1
  rcases r1 with e1 | b1 <;> simp only at he
  · exact hp1 e he
  · rcases h2 : o.unmarshalIGDBGames b1 with e2 | gs <;> simp only [h2] at he
    · exact hp1 e he
    · rcases gs with _ | ⟨g0, gs⟩ <;> simp only at he
      · exact hp1 e he
      · split at he
        · exact hp1 e he
        · rcases h3 : igdbPostRequest o igdbCoverURL (igdbCoverBody g0.cover) s c
            with ⟨r2, t2⟩
          have hp2 := igdbPostRequest_trace_post o igdbCoverURL (igdbCoverBody g0.cover) s c
          rw [h3] at he hp2
          rcases r2 with e3 | b2 <;> simp only [List.mem_append] at he
          · rcases he with he | he
            · exact hp1 e he
            · exact hp2 e he
          · rcases h4 : o.unmarshalIGDBCovers b2 with e4 | cs <;> simp only [h4] at he <;>
              [skip; rcases cs with _ | ⟨c0, cs⟩] <;> simp only [List.mem_append] at he <;>
              rcases he with he | he <;> first | exact hp1 e he | exact hp2 e he

theorem getIGDBImage_trace_len (o : Oracle) (n s c : String) :
    (getIGDBImage o n s c).2.length ≤ 4 := by
  unfold getIGDBImage
  rcases h1 : igdbPostRequest o igdbGameURL (igdbGameBody n) s c with ⟨r1, t1⟩
  have hl1 := igdbPostRequest_trace_len o igdbGameURL (igdbGameBody n) s c
  rw [h1] at hl1
  dsimp only at hl1
  rcases r1 with e1 | b1 <;> (try dsimp only)
  · omega
  · rcases h2 : o.unmarshalIGDBGames b1 with e2 | gs <;> simp only [h2] <;> (try dsimp only)
    · omega
    · rcases gs with _ | ⟨g0, gs⟩ <;> (try dsimp only)
      · omega
      · split <;> (try dsimp only)
        · omega
        · rcases h3 : igdbPostRequest o igdbCoverURL (igdbCoverBody g0.cover) s c
            with ⟨r2, t2⟩
          have hl2 := igdbPostRequest_trace_len o igdbCoverURL (igdbCoverBody g0.cover) s c
          rw [h3] at hl2
          dsimp only at hl2
          rcases r2 with e3 | b2 <;> (try dsimp only)
          · simp only [List.length_append]; omega
          · rcases h4 : o.unmarshalIGDBCovers b2 with e4 | cs <;> simp only [h4] <;>
              (try dsimp only)
            · simp only [List.length_append]; omega
            · rcases cs with _ | ⟨c0, cs⟩ <;> (try dsimp only) <;>
                simp only [List.length_append] <;> omega

/-! ## Event-kind helpers -/

theorem not_post_of_ua {e : NetEvent} (h : e.isUA = true) : e.isPost = false := by
  cases e <;> simp [NetEvent.isUA, NetEvent.isPost] at h ⊢

theorem not_post_of_auth {e : NetEvent} (h : e.isAuth = true) : e.isPost = false := by
  cases e <;> simp [NetEvent.isAuth, NetEvent.isPost] at h ⊢

theorem not_ua_of_auth {e : NetEvent} (h : e.isAuth = true) : e.isUA = false := by
  cases e <;> simp [NetEvent.isAuth, NetEvent.isUA] at h ⊢

theorem not_ua_of_post {e : NetEvent} (h : e.isPost = true) : e.isUA = false := by
  cases e <;> simp [NetEvent.isPost, NetEvent.isUA] at h ⊢

/-! ## Stage reduction lemmas -/

theorem giaGoogleStage_skip_url (o : Oracle) (game : Game) (artStyle : String)
    (exts : List String) (sg so : Bool) (r0 : Option HttpResponse) (url frm : String)
    (h : (url == "") = false) :
    giaGoogleStage o game artStyle exts sg so r0 url frm = giaFinal o url frm := by
  unfold giaGoogleStage
  simp [h]

theorem giaGoogleStage_skip_style (o : Oracle) (game : Game) (artStyle : String)
    (exts : List String) (sg so : Bool) (r0 : Option HttpResponse) (url frm : String)
    (h : (artStyle == "Banner") = false) :
    giaGoogleStage o game artStyle exts sg so r0 url frm = giaFinal o url frm := by
  unfold giaGoogleStage
  simp [h]

theorem giaIGDBStage_skip_url (o : Oracle) (game : Game) (artStyle : String)
    (exts : List String) (sec cli : String) (sg so : Bool) (r0 : Option HttpResponse)
    (url frm : String) (h : (url == "") = false) :
    giaIGDBStage o game artStyle exts sec cli sg so r0 url frm
      = giaGoogleStage o game artStyle exts sg so r0 url frm := by
  unfold giaIGDBStage
  simp [h]

theorem giaIGDBStage_skip_style (o : Oracle) (game : Game) (artStyle : String)
    (exts : List String) (sec cli : String) (sg so : Bool) (r0 : Option HttpResponse)
    (url frm : String) (h : (artStyle == "Cover") = false) :
    giaIGDBStage o game artStyle exts sec cli sg so r0 url frm
      = giaGoogleStage o game artStyle exts sg so r0 url frm := by
  unfold giaIGDBStage
  simp [h]

theorem giaSGDBStage_skip_key (o : Oracle) (game : Game) (artStyle : String)
    (exts : List String) (key sec cli : String) (sg so : Bool)
    (r0 : Option HttpResponse) (h : (key == "") = true) :
    giaSGDBStage o game artStyle exts key sec cli sg so r0
      = giaIGDBStage o game artStyle exts sec cli sg so r0 ("") ("steam server") := by
  unfold giaSGDBStage
  simp [h]
  intro h2
  exact absurd (by simpa using h) h2

theorem giaSGDBStage_run_err (o : Oracle) (game : Game) (artStyle : String)
    (exts : List String) (key sec cli : String) (sg so : Bool)
    (r0 : Option HttpResponse) (hk : (key == "") = false) (e : String)
    (hg : (getSteamGridDBImage o game exts key).1.2 = some e) :
    giaSGDBStage o game artStyle exts key sec cli sg so r0
      = ((r0, "SteamGridDB", some e), (getSteamGridDBImage o game exts key).2) := by
  unfold giaSGDBStage
  simp [hk, hg]
  intro h
  simp [h] at hk

theorem giaSGDBStage_run_ok (o : Oracle) (game : Game) (artStyle : String)
    (exts : List String) (key sec cli : String) (sg so : Bool)
    (r0 : Option HttpResponse) (hk : (key == "") = false)
    (hg : (getSteamGridDBImage o game exts key).1.2 = none) :
    giaSGDBStage o game artStyle exts key sec cli sg so r0
      = ((giaIGDBStage o game artStyle exts sec cli sg so r0
            ((getSteamGridDBImage o game exts key).1.1) ("SteamGridDB")).1,
          (getSteamGridDBImage o game exts key).2 ++
            (giaIGDBStage o game artStyle exts sec cli sg so r0
              ((getSteamGridDBImage o game exts key).1.1) ("SteamGridDB")).2) := by
  unfold giaSGDBStage
  simp [hk, hg]
  intro h
  simp [h] at hk

theorem giaIGDBStage_run_err (o : Oracle) (game : Game) (artStyle : String)
    (exts : List String) (sec cli : String) (sg so : Bool) (r0 : Option HttpResponse)
    (url frm : String) (hst : (artStyle == "Cover") = true) (hc : (cli == "") = false)
    (hs : (sec == "") = false) (hu : (url == "") = true) (hso : so = false)
    (e : String) (hg : (getIGDBImage o game.Name sec cli).1.2 = some e) :
    giaIGDBStage o game artStyle exts sec cli sg so r0 url frm
      = ((r0, "IGDB", some e), (getIGDBImage o game.Name sec cli).2) := by
  unfold giaIGDBStage
  simp [hst, hu, hso, hg]
  intro h
  rcases h (by simpa using hc) with h2
  simp [h2] at hs

theorem giaGoogleStage_run_err (o : Oracle) (game : Game) (artStyle : String)
    (exts : List String) (sg so : Bool) (r0 : Option HttpResponse) (url frm : String)
    (hsg : sg = false) (hst : (artStyle == "Banner") = true) (hu : (url == "") = true)
    (hso : so = false) (e : String)
    (hg : (getGoogleImage o game.Name exts).1.2 = some e) :
    giaGoogleStage o game artStyle exts sg so r0 url frm
      = ((r0, "search", some e), (getGoogleImage o game.Name exts).2) := by
  unfold giaGoogleStage
  simp [hsg, hst, hu, hso, hg]

theorem gia_steam_off (o : Oracle) (game : Game) (artStyle : String)
    (exts : List String) (skipSteam : Bool) (key sec cli : String) (sg om so : Bool)
    (h : (!skipSteam && !so) = false) :
    getImageAlternatives o game artStyle exts skipSteam key sec cli sg om so
      = giaSGDBStage o game artStyle exts key sec cli sg so none := by
  unfold getImageAlternatives
  simp [h]

theorem gia_primary1_hit (o : Oracle) (game : Game) (artStyle : String)
    (exts : List String) (skipSteam : Bool) (key sec cli : String) (sg om so : Bool)
    (hgd : (!skipSteam && !so) = true) (r : HttpResponse)
    (h : (tryDownload o (akamaiURL game.ID (exts.getD 2 ""))).1 = (some r, none)) :
    getImageAlternatives o game artStyle exts skipSteam key sec cli sg om so
      = ((if om then (none, "", none) else (some r, "steam server", none)),
          [NetEvent.get (akamaiURL game.ID (exts.getD 2 ""))]) := by
  unfold getImageAlternatives
  rw [hgd]
  simp at h
  simp [h, tryDownload_snd]
  split <;> rfl

theorem gia_primary2_hit (o : Oracle) (game : Game) (artStyle : String)
    (exts : List String) (skipSteam : Bool) (key sec cli : String) (sg om so : Bool)
    (hgd : (!skipSteam && !so) = true)
    (h1 : (tryDownload o (akamaiURL game.ID (exts.getD 2 ""))).1.1 = none)
    (r : HttpResponse)
    (h2 : (tryDownload o (steamCdnURL game.ID (exts.getD 2 ""))).1 = (some r, none)) :
    getImageAlternatives o game artStyle exts skipSteam key sec cli sg om so
      = ((if om then (none, "", none) else (some r, "steam server", none)),
          [NetEvent.get (akamaiURL game.ID (exts.getD 2 "")),
            NetEvent.get (steamCdnURL game.ID (exts.getD 2 ""))]) := by
  unfold getImageAlternatives
  rw [hgd]
  simp at h1 h2
  simp [h1, h2, tryDownload_snd]
  split <;> rfl

theorem gia_fall (o : Oracle) (game : Game) (artStyle : String)
    (exts : List String) (skipSteam : Bool) (key sec cli : String) (sg om so : Bool)
    (hgd : (!skipSteam && !so) = true)
    (h1 : (tryDownload o (akamaiURL game.ID (exts.getD 2 ""))).1.1 = none)
    (h2 : (tryDownload o (steamCdnURL game.ID (exts.getD 2 ""))).1.1 = none) :
    getImageAlternatives o game artStyle exts skipSteam key sec cli sg om so
      = ((giaSGDBStage o game artStyle exts key sec cli sg so none).1,
          NetEvent.get (akamaiURL game.ID (exts.getD 2 "")) ::
            NetEvent.get (steamCdnURL game.ID (exts.getD 2 "")) ::
              (giaSGDBStage o game artStyle exts key sec cli sg so none).2) := by
  unfold getImageAlternatives
  rw [hgd]
  simp at h1 h2
  simp [h1, h2, tryDownload_snd]

/-- From a false short-circuit guard, the first component of the
`tryDownload` result is `nil`. -/
theorem tryDownload_fst_none (o : Oracle) (u : String)
    (h : ((tryDownload o u).1.2.isNone && (tryDownload o u).1.1.isSome) = false) :
    (tryDownload o u).1.1 = none := by
  unfold tryDownload at h ⊢
  rcases hx : o.get u with e | r
  · simp [hx]
  · simp only [hx] at h ⊢
    by_cases h404 : (r.statusCode == 404) = true
    · simp [h404]
    · by_cases h400 : 400 ≤ r.statusCode
      · simp [h404, h400]
      · simp [h404, h400] at h

/-- Shape of the resolver trace: at most two primary-CDN GETs followed by
either nothing (a primary-stage return) or the trace of the later
stages. -/
theorem gia_trace_parts (o : Oracle) (game : Game) (artStyle : String)
    (exts : List String) (skipSteam : Bool) (key sec cli : String) (sg om so : Bool) :
    ∃ gets rest : List NetEvent,
      (getImageAlternatives o game artStyle exts skipSteam key sec cli sg om so).2
          = gets ++ rest ∧
        gets.length ≤ 2 ∧ (∀ e ∈ gets, e.isGet = true) ∧
        (rest = [] ∨ ∃ r0, rest
          = (giaSGDBStage o game artStyle exts key sec cli sg so r0).2) := by
  by_cases hgd : (!skipSteam && !so) = true
  · by_cases h1 : ((tryDownload o (akamaiURL game.ID (exts.getD 2 ""))).1.2.isNone &&
        (tryDownload o (akamaiURL game.ID (exts.getD 2 ""))).1.1.isSome) = true
    · rw [Bool.and_eq_true] at h1
      obtain ⟨hA, hB⟩ := h1
      obtain ⟨r, hr⟩ := Option.isSome_iff_exists.mp hB
      have hpair : (tryDownload o (akamaiURL game.ID (exts.getD 2 ""))).1 = (some r, none) :=
        Prod.ext_iff.mpr ⟨hr, Option.isNone_iff_eq_none.mp hA⟩
      rw [gia_primary1_hit o game artStyle exts skipSteam key sec cli sg om so hgd r hpair]
      exact ⟨[NetEvent.get (akamaiURL game.ID (exts.getD 2 ""))], [], by simp, by simp,
        by simp [NetEvent.isGet], Or.inl rfl⟩
    · have h1n := tryDownload_fst_none o (akamaiURL game.ID (exts.getD 2 ""))
        (by simpa using h1)
      by_cases h2 : ((tryDownload o (steamCdnURL game.ID (exts.getD 2 ""))).1.2.isNone &&
          (tryDownload o (steamCdnURL game.ID (exts.getD 2 ""))).1.1.isSome) = true
      · rw [Bool.and_eq_true] at h2
        obtain ⟨hA, hB⟩ := h2
        obtain ⟨r, hr⟩ := Option.isSome_iff_exists.mp hB
        have hpair : (tryDownload o (steamCdnURL game.ID (exts.getD 2 ""))).1
            = (some r, none) :=
          Prod.ext_iff.mpr ⟨hr, Option.isNone_iff_eq_none.mp hA⟩
        rw [gia_primary2_hit o game artStyle exts skipSteam key sec cli sg om so hgd h1n
          r hpair]
        exact ⟨[NetEvent.get (akamaiURL game.ID (exts.getD 2 "")),
            NetEvent.get (steamCdnURL game.ID (exts.getD 2 ""))], [], by simp, by simp,
          by simp [NetEvent.isGet], Or.inl rfl⟩
      · have h2n := tryDownload_fst_none o (steamCdnURL game.ID (exts.getD 2 ""))
          (by simpa using h2)
        rw [gia_fall o game artStyle exts skipSteam key sec cli sg om so hgd h1n h2n]
        exact ⟨[NetEvent.get (akamaiURL game.ID (exts.getD 2 "")),
            NetEvent.get (steamCdnURL game.ID (exts.getD 2 ""))],
          (giaSGDBStage o game artStyle exts key sec cli sg so none).2, rfl, by simp,
          by simp [NetEvent.isGet], Or.inr ⟨none, rfl⟩⟩
  · rw [gia_steam_off o game artStyle exts skipSteam key sec cli sg om so
      (by simpa using hgd)]
    exact ⟨[], _, by simp, by simp, by simp, Or.inr ⟨none, rfl⟩⟩

theorem giaGoogleStage_no_post (o : Oracle) (game : Game) (artStyle : String)
    (exts : List String) (sg so : Bool) (r0 : Option HttpResponse) (url frm : String) :
    ∀ e ∈ (giaGoogleStage o game artStyle exts sg so r0 url frm).2, e.isPost = false := by
  intro e he
  unfold giaGoogleStage at he
  split at he
  · rcases hg : (getGoogleImage o game.Name exts).1.2 with _ | err <;>
      simp only [hg] at he
    · simp only [giaFinal_snd, List.mem_append, List.mem_singleton] at he
      rcases he with he | he
      · exact not_post_of_ua (getGoogleImage_trace_ua o game.Name exts e he)
      · subst he; rfl
    · exact not_post_of_ua (getGoogleImage_trace_ua o game.Name exts e he)
  · rw [giaFinal_snd] at he
    simp at he
    subst he; rfl

theorem giaGoogleStage_no_auth (o : Oracle) (game : Game) (artStyle : String)
    (exts : List String) (sg so : Bool) (r0 : Option HttpResponse) (url frm : String) :
    ∀ e ∈ (giaGoogleStage o game artStyle exts sg so r0 url frm).2, e.isAuth = false := by
  intro e he
  unfold giaGoogleStage at he
  split at he
  · rcases hg : (getGoogleImage o game.Name exts).1.2 with _ | err <;>
      simp only [hg] at he
    · simp only [giaFinal_snd, List.mem_append, List.mem_singleton] at he
      rcases he with he | he
      · have := getGoogleImage_trace_ua o game.Name exts e he
        cases e <;> simp [NetEvent.isUA, NetEvent.isAuth] at this ⊢
      · subst he; rfl
    · have := getGoogleImage_trace_ua o game.Name exts e he
      cases e <;> simp [NetEvent.isUA, NetEvent.isAuth] at this ⊢
  · rw [giaFinal_snd] at he
    simp at he
    subst he; rfl

theorem giaGoogleStage_no_ua_of (o : Oracle) (game : Game) (artStyle : String)
    (exts : List String) (sg so : Bool) (r0 : Option HttpResponse) (url frm : String)
    (h : (artStyle == "Banner") = false) :
    ∀ e ∈ (giaGoogleStage o game artStyle exts sg so r0 url frm).2, e.isUA = false := by
  intro e he
  rw [giaGoogleStage_skip_style o game artStyle exts sg so r0 url frm h,
    giaFinal_snd] at he
  simp at he
  subst he; rfl

theorem giaIGDBStage_no_ua_of (o : Oracle) (game : Game) (artStyle : String)
    (exts : List String) (sec cli : String) (sg so : Bool) (r0 : Option HttpResponse)
    (url frm : String) (h : (artStyle == "Banner") = false) :
    ∀ e ∈ (giaIGDBStage o game artStyle exts sec cli sg so r0 url frm).2,
      e.isUA = false := by
  intro e he
  unfold giaIGDBStage at he
  split at he
  · rcases hg : (getIGDBImage o game.Name sec cli).1.2 with _ | err <;>
      simp only [hg] at he
    · simp only [List.mem_append] at he
      rcases he with he | he
      · exact not_ua_of_post (getIGDBImage_trace_post o game.Name sec cli e he)
      · exact giaGoogleStage_no_ua_of o game artStyle exts sg so r0 _ _ h e he
    · exact not_ua_of_post (getIGDBImage_trace_post o game.Name sec cli e he)
  · exact giaGoogleStage_no_ua_of o game artStyle exts sg so r0 _ _ h e he

theorem giaIGDBStage_no_post_of (o : Oracle) (game : Game) (artStyle : String)
    (exts : List String) (sec cli : String) (sg so : Bool) (r0 : Option HttpResponse)
    (url frm : String) (h : (artStyle == "Cover") = false) :
    ∀ e ∈ (giaIGDBStage o game artStyle exts sec cli sg so r0 url frm).2,
      e.isPost = false := by
  intro e he
  rw [giaIGDBStage_skip_style o game artStyle exts sec cli sg so r0 url frm h] at he
  exact giaGoogleStage_no_post o game artStyle exts sg so r0 url frm e he

theorem giaSGDBStage_no_post_of (o : Oracle) (game : Game) (artStyle : String)
    (exts : List String) (key sec cli : String) (sg so : Bool)
    (r0 : Option HttpResponse) (h : (artStyle == "Cover") = false) :
    ∀ e ∈ (giaSGDBStage o game artStyle exts key sec cli sg so r0).2,
      e.isPost = false := by
  intro e he
  by_cases hk : (key == "") = true
  · rw [giaSGDBStage_skip_key o game artStyle exts key sec cli sg so r0 hk] at he
    exact giaIGDBStage_no_post_of o game artStyle exts sec cli sg so r0 _ _ h e he
  · have hk2 : (key == "") = false := by simpa using hk
    rcases hg : (getSteamGridDBImage o game exts key).1.2 with _ | err
    · rw [giaSGDBStage_run_ok o game artStyle exts key sec cli sg so r0 hk2 hg] at he
      simp only [List.mem_append] at he
      rcases he with he | he
      · exact not_post_of_auth (getSteamGridDBImage_trace_auth o game exts key e he)
      · exact giaIGDBStage_no_post_of o game artStyle exts sec cli sg so r0 _ _ h e he
    · rw [giaSGDBStage_run_err o game artStyle exts key sec cli sg so r0 hk2 err hg] at he
      exact not_post_of_auth (getSteamGridDBImage_trace_auth o game exts key e he)

theorem giaSGDBStage_no_ua_of (o : Oracle) (game : Game) (artStyle : String)
    (exts : List String) (key sec cli : String) (sg so : Bool)
    (r0 : Option HttpResponse) (h : (artStyle == "Banner") = false) :
    ∀ e ∈ (giaSGDBStage o game artStyle exts key sec cli sg so r0).2,
      e.isUA = false := by
  intro e he
  by_cases hk : (key == "") = true
  · rw [giaSGDBStage_skip_key o game artStyle exts key sec cli sg so r0 hk] at he
    exact giaIGDBStage_no_ua_of o game artStyle exts sec cli sg so r0 _ _ h e he
  · have hk2 : (key == "") = false := by simpa using hk
    rcases hg : (getSteamGridDBImage o game exts key).1.2 with _ | err
    · rw [giaSGDBStage_run_ok o game artStyle exts key sec cli sg so r0 hk2 hg] at he
      simp only [List.mem_append] at he
      rcases he with he | he
      · exact not_ua_of_auth (getSteamGridDBImage_trace_auth o game exts key e he)
      · exact giaIGDBStage_no_ua_of o game artStyle exts sec cli sg so r0 _ _ h e he
    · rw [giaSGDBStage_run_err o game artStyle exts key sec cli sg so r0 hk2 err hg] at he
      exact not_ua_of_auth (getSteamGridDBImage_trace_auth o game exts key e he)

theorem not_post_of_get {e : NetEvent} (h : e.isGet = true) : e.isPost = false := by
  cases e <;> simp [NetEvent.isGet, NetEvent.isPost] at h ⊢

theorem not_ua_of_get {e : NetEvent} (h : e.isGet = true) : e.isUA = false := by
  cases e <;> simp [NetEvent.isGet, NetEvent.isUA] at h ⊢

/-- After a community-database stage that produced a non-empty candidate
with no error, the remaining stage trace is the community-database
requests plus the single final download of that candidate: no POST and no
UA-tagged request occurs. -/
theorem giaSGDBStage_sgdb_hit (o : Oracle) (game : Game) (artStyle : String)
    (exts : List String) (key sec cli : String) (sg so : Bool)
    (r0 : Option HttpResponse) (hk : (key == "") = false) (u : String)
    (hg : (getSteamGridDBImage o game exts key).1 = (u, none))
    (hu : (u == "") = false) :
    ∀ e ∈ (giaSGDBStage o game artStyle exts key sec cli sg so r0).2,
      e.isPost = false ∧ e.isUA = false := by
  intro e he
  have hg2 : (getSteamGridDBImage o game exts key).1.2 = none := by rw [hg]
  have hg1 : (getSteamGridDBImage o game exts key).1.1 = u := by rw [hg]
  rw [giaSGDBStage_run_ok o game artStyle exts key sec cli sg so r0 hk hg2] at he
  dsimp only at he
  rw [hg1, giaIGDBStage_skip_url o game artStyle exts sec cli sg so r0 u ("SteamGridDB") hu,
    giaGoogleStage_skip_url o game artStyle exts sg so r0 u ("SteamGridDB") hu,
    giaFinal_snd] at he
  simp only [List.mem_append, List.mem_singleton] at he
  rcases he with he | he
  · exact ⟨not_post_of_auth (getSteamGridDBImage_trace_auth o game exts key e he),
      not_ua_of_auth (getSteamGridDBImage_trace_auth o game exts key e he)⟩
  · subst he
    exact ⟨rfl, rfl⟩

/-- Claim C1: for every game, style and flag combination the resolver
queries the metadata database (IGDB POSTs) only for the `Cover` style and
web search (the UA-tagged Google request) only for the `Banner` style;
and once the community-database stage has produced a non-empty candidate
URL with no error, the metadata-database and web-search stages are both
skipped for the rest of the attempt. -/
theorem C1_provider_gating (o : Oracle) (game : Game) (artStyle : String)
    (exts : List String) (skipSteam : Bool) (key sec cli : String) (sg om so : Bool) :
    (artStyle ≠ "Cover" →
      ∀ e ∈ (getImageAlternatives o game artStyle exts skipSteam key sec cli sg om so).2,
        e.isPost = false) ∧
    (artStyle ≠ "Banner" →
      ∀ e ∈ (getImageAlternatives o game artStyle exts skipSteam key sec cli sg om so).2,
        e.isUA = false) ∧
    (∀ u : String, key ≠ "" → (getSteamGridDBImage o game exts key).1 = (u, none) →
      u ≠ "" →
      ∀ e ∈ (getImageAlternatives o game artStyle exts skipSteam key sec cli sg om so).2,
        e.isPost = false ∧ e.isUA = false) := by
  obtain ⟨gets, rest, htr, _, hget, hrest⟩ :=
    gia_trace_parts o game artStyle exts skipSteam key sec cli sg om so
  refine ⟨?_, ?_, ?_⟩
  · intro h e he
    rw [htr] at he
    rcases List.mem_append.mp he with he | he
    · exact not_post_of_get (hget e he)
    · rcases hrest with hrest | ⟨r0, hrest⟩
      · simp [hrest] at he
      · rw [hrest] at he
        exact giaSGDBStage_no_post_of o game artStyle exts key sec cli sg so r0
          (by simp [h]) e he
  · intro h e he
    rw [htr] at he
    rcases List.mem_append.mp he with he | he
    · exact not_ua_of_get (hget e he)
    · rcases hrest with hrest | ⟨r0, hrest⟩
      · simp [hrest] at he
      · rw [hrest] at he
        exact giaSGDBStage_no_ua_of o game artStyle exts key sec cli sg so r0
          (by simp [h]) e he
  · intro u hk hg hu e he
    rw [htr] at he
    rcases List.mem_append.mp he with he | he
    · exact ⟨not_post_of_get (hget e he), not_ua_of_get (hget e he)⟩
    · rcases hrest with hrest | ⟨r0, hrest⟩
      · simp [hrest] at he
      · rw [hrest] at he
        exact giaSGDBStage_sgdb_hit o game artStyle exts key sec cli sg so r0
          (by simp [hk]) u hg (by simp [hu]) e he

/-- Witness for C1 at a concrete oracle: a Hero-style resolution in which
the community database produces the candidate `http://x`. -/
theorem C1_provider_gating_witness :
    (∀ e ∈ (getImageAlternatives oracleW1 gameA "Hero" extsHero true "kk" "" ""
        true false false).2, e.isPost = false) ∧
    (∀ e ∈ (getImageAlternatives oracleW1 gameA "Hero" extsHero true "kk" "" ""
        true false false).2, e.isUA = false) ∧
    (∀ e ∈ (getImageAlternatives oracleW1 gameA "Hero" extsHero true "kk" "" ""
        true false false).2, e.isPost = false ∧ e.isUA = false) :=
  ⟨(C1_provider_gating oracleW1 gameA "Hero" extsHero true "kk" "" "" true false
      false).1 (by decide),
    (C1_provider_gating oracleW1 gameA "Hero" extsHero true "kk" "" "" true false
      false).2.1 (by decide),
    (C1_provider_gating oracleW1 gameA "Hero" extsHero true "kk" "" "" true false
      false).2.2 "http://x" (by decide) (by rfl) (by decide)⟩

/-- Claim C2 (code bug): a community-database 401 is surfaced as the error
text " SteamGridDB authorization token is missing or invalid" — with a
leading space, as written at lines 187/194 of the source — while the batch
loop (`steamgrid.go:228`) compares the error against the same sentence
without the leading space.  The two strings differ, so the api key is not
cleared and the provider is queried again on the next resolution; had the
key been cleared, the provider would indeed be skipped (last conjunct). -/
theorem C2_auth_key_never_cleared :
    (getSteamGridDBImage oracle401 gameA extsBanner "KEY").1
        = ("", some sgdbAuthErr) ∧
    sgdbAuthErr ≠ callerAuthErrString ∧
    updatedApiKey "KEY" (some sgdbAuthErr) = "KEY" ∧
    (getImageAlternatives oracle401 gameA "Banner" extsBanner true "KEY" "" "" true
        false false).2.countP NetEvent.isAuth = 1 ∧
    (getImageAlternatives oracle401 gameA "Banner" extsBanner true "" "" "" true
        false false).2.countP NetEvent.isAuth = 0 :=
  ⟨rfl, by decide, rfl, rfl, rfl⟩

/-- Claim C3 counterexample: with `onlyIfMissingAtPrimary` set and the
primary CDN succeeding, the resolver returns exactly the triple
`(nil, "", nil)` — the same value a resolution that finds nothing anywhere
returns — so the "already present" outcome is not distinguishable from the
benign "not found" outcome. -/
theorem C3_counterexample :
    (getImageAlternatives oracleSteamOK gameA "Banner" extsBanner false "" "" "" false
        true false).1 = (none, "", none) ∧
    (getImageAlternatives oracle404 gameA "Banner" extsBanner false "" "" "" true
        false false).1 = (none, "", none) :=
  ⟨rfl, rfl⟩

/-- Claim C3 (amended): with `onlyIfMissingAtPrimary` set, a success of
either primary variant aborts the whole resolution and yields the benign
empty triple `(nil, "", nil)` — identical in value to the not-found
outcome rather than distinguished from it — after exactly the primary
probe requests: the downloader is not invoked again and no other provider
is queried. -/
theorem C3_only_missing_abort (o : Oracle) (game : Game) (artStyle : String)
    (exts : List String) (key sec cli : String) (sg : Bool) :
    (∀ r : HttpResponse,
      (tryDownload o (akamaiURL game.ID (exts.getD 2 ""))).1 = (some r, none) →
      getImageAlternatives o game artStyle exts false key sec cli sg true false
        = ((none, "", none), [NetEvent.get (akamaiURL game.ID (exts.getD 2 ""))])) ∧
    (∀ r : HttpResponse,
      (tryDownload o (akamaiURL game.ID (exts.getD 2 ""))).1.1 = none →
      (tryDownload o (steamCdnURL game.ID (exts.getD 2 ""))).1 = (some r, none) →
      getImageAlternatives o game artStyle exts false key sec cli sg true false
        = ((none, "", none),
            [NetEvent.get (akamaiURL game.ID (exts.getD 2 "")),
              NetEvent.get (steamCdnURL game.ID (exts.getD 2 ""))])) := by
  constructor
  · intro r h
    rw [gia_primary1_hit o game artStyle exts false key sec cli sg true false rfl r h]
    rfl
  · intro r h1 h2
    rw [gia_primary2_hit o game artStyle exts false key sec cli sg true false rfl h1
      r h2]
    rfl

/-- Witness for the amended C3 at a concrete oracle whose primary CDN
long-form variant succeeds. -/
theorem C3_only_missing_abort_witness :
    getImageAlternatives oracleSteamOK gameA "Banner" extsBanner false "" "" "" false
        true false
      = ((none, "", none), [NetEvent.get (akamaiURL "42" "header.jpg")]) :=
  (C3_only_missing_abort oracleSteamOK gameA "Banner" extsBanner "" "" "" false).1
    (resp200 "image/jpeg" "/steam/apps/42/header.jpg" "IMG") (by rfl)

/-- When the primary stage falls through (or is skipped), the resolver
result is that of the later stages with a `nil` carried response. -/
theorem gia_fall_fst (o : Oracle) (game : Game) (artStyle : String)
    (exts : List String) (skipSteam : Bool) (key sec cli : String) (sg om so : Bool)
    (hs : skipSteam = true ∨
      ((tryDownload o (akamaiURL game.ID (exts.getD 2 ""))).1.1 = none ∧
        (tryDownload o (steamCdnURL game.ID (exts.getD 2 ""))).1.1 = none)) :
    (getImageAlternatives o game artStyle exts skipSteam key sec cli sg om so).1
      = (giaSGDBStage o game artStyle exts key sec cli sg so none).1 := by
  by_cases hgd : (!skipSteam && !so) = true
  · rcases hs with hs | ⟨h1, h2⟩
    · rw [hs] at hgd
      simp at hgd
    · rw [gia_fall o game artStyle exts skipSteam key sec cli sg om so hgd h1 h2]
  · rw [gia_steam_off o game artStyle exts skipSteam key sec cli sg om so
      (by simpa using hgd)]

/-- Claim C4 counterexample: the community database produces the candidate
`http://img`, its final download answers 500 — an explicit transport error
from `tryDownload` — and yet the resolver returns the benign empty triple
`(nil, "", nil)` instead of an error. -/
theorem C4_counterexample :
    (tryDownload oracleC4 "http://img").1
        = (none, some ("Failed to download image http://img: 500 Internal Server Error")) ∧
    (getSteamGridDBImage oracleC4 gameA extsHero "k").1 = ("http://img", none) ∧
    (getImageAlternatives oracleC4 gameA "Hero" extsHero true "k" "" "" true false
        false).1 = (none, "", none) :=
  ⟨rfl, rfl, rfl⟩

/-- Claim C4 (amended): once the primary stage has fallen through (or is
skipped), a transport error from the community-database, metadata-database
or web-search lookup aborts the attempt and is returned to the caller as
that error; by contrast, a failed final download of the selected candidate
(and a missing candidate) yields the benign empty result, and a primary-CDN
transport error merely falls through to the later stages rather than
aborting. -/
theorem C4_transport_errors (o : Oracle) (game : Game) (artStyle : String)
    (exts : List String) (skipSteam : Bool) (key sec cli : String) (sg om so : Bool)
    (hs : skipSteam = true ∨
      ((tryDownload o (akamaiURL game.ID (exts.getD 2 ""))).1.1 = none ∧
        (tryDownload o (steamCdnURL game.ID (exts.getD 2 ""))).1.1 = none)) :
    (key ≠ "" → ∀ e : String, (getSteamGridDBImage o game exts key).1.2 = some e →
      (getImageAlternatives o game artStyle exts skipSteam key sec cli sg om so).1.2.2
        = some e) ∧
    (artStyle = "Cover" → cli ≠ "" → sec ≠ "" → so = false →
      (key = "" ∨ (getSteamGridDBImage o game exts key).1 = ("", none)) →
      ∀ e : String, (getIGDBImage o game.Name sec cli).1.2 = some e →
      (getImageAlternatives o game artStyle exts skipSteam key sec cli sg om so).1.2.2
        = some e) ∧
    (artStyle = "Banner" → sg = false → so = false →
      (key = "" ∨ (getSteamGridDBImage o game exts key).1 = ("", none)) →
      ∀ e : String, (getGoogleImage o game.Name exts).1.2 = some e →
      (getImageAlternatives o game artStyle exts skipSteam key sec cli sg om so).1.2.2
        = some e) ∧
    (∀ u frm : String, (tryDownload o u).1.1 = none →
      (giaFinal o u frm).1 = (none, "", none)) := by
  have hred := gia_fall_fst o game artStyle exts skipSteam key sec cli sg om so hs
  refine ⟨?_, ?_, ?_, ?_⟩
  · intro hk e hg
    rw [hred, giaSGDBStage_run_err o game artStyle exts key sec cli sg so none
      (by simp [hk]) e hg]
  · intro hsty hc hsec hso hkey e hg
    rw [hred]
    by_cases hk : (key == "") = true
    · rw [giaSGDBStage_skip_key o game artStyle exts key sec cli sg so none hk,
        giaIGDBStage_run_err o game artStyle exts sec cli sg so none ("")
          ("steam server") (by simp [hsty]) (by simp [hc]) (by simp [hsec]) (by rfl)
          hso e hg]
    · have hkey2 : (getSteamGridDBImage o game exts key).1 = ("", none) := by
        rcases hkey with hkey | hkey
        · exact absurd (by simp [hkey] : (key == "") = true) hk
        · exact hkey
      have hg2 : (getSteamGridDBImage o game exts key).1.2 = none := by rw [hkey2]
      have hg1 : (getSteamGridDBImage o game exts key).1.1 = "" := by rw [hkey2]
      rw [giaSGDBStage_run_ok o game artStyle exts key sec cli sg so none
        (by simpa using hk) hg2]
      dsimp only
      rw [hg1, giaIGDBStage_run_err o game artStyle exts sec cli sg so none ("")
        ("SteamGridDB") (by simp [hsty]) (by simp [hc]) (by simp [hsec]) (by rfl)
        hso e hg]
  · intro hsty hsg hso hkey e hg
    rw [hred]
    have hstyC : (artStyle == "Cover") = false := by simp [hsty]
    by_cases hk : (key == "") = true
    · rw [giaSGDBStage_skip_key o game artStyle exts key sec cli sg so none hk,
        giaIGDBStage_skip_style o game artStyle exts sec cli sg so none ("")
          ("steam server") hstyC,
        giaGoogleStage_run_err o game artStyle exts sg so none ("") ("steam server")
          hsg (by simp [hsty]) (by rfl) hso e hg]
    · have hkey2 : (getSteamGridDBImage o game exts key).1 = ("", none) := by
        rcases hkey with hkey | hkey
        · exact absurd (by simp [hkey] : (key == "") = true) hk
        · exact hkey
      have hg2 : (getSteamGridDBImage o game exts key).1.2 = none := by rw [hkey2]
      have hg1 : (getSteamGridDBImage o game exts key).1.1 = "" := by rw [hkey2]
      rw [giaSGDBStage_run_ok o game artStyle exts key sec cli sg so none
        (by simpa using hk) hg2]
      dsimp only
      rw [hg1, giaIGDBStage_skip_style o game artStyle exts sec cli sg so none ("")
          ("SteamGridDB") hstyC,
        giaGoogleStage_run_err o game artStyle exts sg so none ("") ("SteamGridDB")
          hsg (by simp [hsty]) (by rfl) hso e hg]
  · intro u frm h
    unfold giaFinal
    simp [h]

/-- Witness for the amended C4: with the primary stage skipped and the
community-database transport failing with "connection refused", the
resolver surfaces exactly that error. -/
theorem C4_transport_errors_witness :
    (getImageAlternatives oracleC4w gameA "Hero" extsHero true "k" "" "" true false
        false).1.2.2 = some ("connection refused") :=
  (C4_transport_errors oracleC4w gameA "Hero" extsHero true "k" "" "" true false false
    (Or.inl rfl)).1 (by decide) "connection refused" (by rfl)

/-- The search phase always begins with the autocomplete request. -/
theorem sgdbSearchPhase_head (o : Oracle) (g : Game) (exts : List String)
    (k : String) (af : Bool) :
    ∃ t, (sgdbSearchPhase o g exts k af).2
      = NetEvent.getAuth (sgdbAutocompleteURL g exts) ("Bearer " ++ k) :: t := by
  unfold sgdbSearchPhase
  rcases h2 : (steamGridDBGetRequest o (sgdbAutocompleteURL g exts) k).1 with e2 | b2 <;>
    simp only [h2, steamGridDBGetRequest_snd]
  · exact ⟨[], rfl⟩
  · rcases h3 : o.unmarshalSGDBSearch b2 with e3 | sr <;> simp only [h3]
    · exact ⟨[], rfl⟩
    · by_cases hg : (sgdbBestID o g sr == -1) = true <;>
        simp only [hg, if_true, Bool.false_eq_true, if_false, sgdbGamePhase_snd]
      · exact ⟨[], rfl⟩
      · exact ⟨_, rfl⟩

/-- A loop pass whose phase A answered 404 issues the autocomplete request
first. -/
theorem sgdbIterationCore404_head (o : Oracle) (g : Game) (exts : List String)
    (k : String) :
    ∃ t, (sgdbIterationCore o g exts k (.error ("404")) []).2
      = NetEvent.getAuth (sgdbAutocompleteURL g exts) ("Bearer " ++ k) :: t := by
  obtain ⟨t, ht⟩ := sgdbSearchPhase_head o g exts k
    (strContains (sgdbDirectURL g exts) ("animated,static"))
  unfold sgdbIterationCore
  simp [ht]

/-- Claim C5 counterexample: a custom game with the primary CDN not
skipped — the resolver's very first request is the primary-CDN URL built
from the custom game's identifier, so the primary CDN is not skipped for
custom games. -/
theorem C5_counterexample :
    gameCustom.Custom = true ∧
    (getImageAlternatives oracle404 gameCustom "Banner" extsBanner false "" "" "" true
        false false).2.head?
      = some (NetEvent.get (akamaiURL "99" "header.jpg")) :=
  ⟨rfl, rfl⟩

/-- Claim C5 (amended): the skip-for-custom-games behavior belongs to the
community-database provider, not the primary CDN: for a custom game the
by-identifier (phase A) request is never issued — the loop pass behaves
exactly as if that request had answered 404, with an empty trace prefix —
and the first community-database request of the lookup is the autocomplete
name search. -/
theorem C5_custom_skips_direct (o : Oracle) (game : Game) (exts : List String)
    (key : String) (h : game.Custom = true) :
    sgdbIteration o game exts key
        = sgdbIterationCore o game exts key (.error ("404")) [] ∧
    ((getSteamGridDBImage o game exts key).2).head?
        = some (NetEvent.getAuth (sgdbAutocompleteURL game exts) ("Bearer " ++ key)) := by
  have h1 : sgdbIteration o game exts key
      = sgdbIterationCore o game exts key (.error ("404")) [] := by
    unfold sgdbIteration
    simp [h]
  refine ⟨h1, ?_⟩
  obtain ⟨t, ht⟩ := sgdbIterationCore404_head o game exts key
  unfold getSteamGridDBImage
  rcases hit : sgdbIteration o game exts key with ⟨r, ev⟩
  have hev : ev = NetEvent.getAuth (sgdbAutocompleteURL game exts) ("Bearer " ++ key) :: t := by
    have h2 : sgdbIterationCore o game exts key (.error ("404")) [] = (r, ev) :=
      h1 ▸ hit
    rw [h2] at ht
    simpa using ht
  rcases r with _ | r <;> simp [hev]

/-- Witness for the amended C5 at the concrete custom game. -/
theorem C5_custom_skips_direct_witness :
    sgdbIteration oracle404 gameCustom extsBanner "k"
        = sgdbIterationCore oracle404 gameCustom extsBanner "k" (.error ("404")) [] ∧
    ((getSteamGridDBImage oracle404 gameCustom extsBanner "k").2).head?
        = some (NetEvent.getAuth (sgdbAutocompleteURL gameCustom extsBanner)
            ("Bearer " ++ "k")) :=
  C5_custom_skips_direct oracle404 gameCustom extsBanner "k" rfl

theorem not_get_of_ua {e : NetEvent} (h : e.isUA = true) : e.isGet = false := by
  cases e <;> simp [NetEvent.isUA, NetEvent.isGet] at h ⊢

theorem not_auth_of_ua {e : NetEvent} (h : e.isUA = true) : e.isAuth = false := by
  cases e <;> simp [NetEvent.isUA, NetEvent.isAuth] at h ⊢

theorem not_get_of_post {e : NetEvent} (h : e.isPost = true) : e.isGet = false := by
  cases e <;> simp [NetEvent.isPost, NetEvent.isGet] at h ⊢

theorem not_auth_of_post {e : NetEvent} (h : e.isPost = true) : e.isAuth = false := by
  cases e <;> simp [NetEvent.isPost, NetEvent.isAuth] at h ⊢

theorem not_get_of_auth {e : NetEvent} (h : e.isAuth = true) : e.isGet = false := by
  cases e <;> simp [NetEvent.isAuth, NetEvent.isGet] at h ⊢

theorem not_auth_of_get {e : NetEvent} (h : e.isGet = true) : e.isAuth = false := by
  cases e <;> simp [NetEvent.isGet, NetEvent.isAuth] at h ⊢

theorem countP_zero_of_all {p : NetEvent → Bool} {l : List NetEvent}
    (h : ∀ e ∈ l, p e = false) : l.countP p = 0 :=
  List.countP_eq_zero.mpr (fun a ha => by simp [h a ha])

/-- Event counts of the web-search stage: at most one UA request and one
final GET, no POST, no authorized GET. -/
theorem giaGoogleStage_counts (o : Oracle) (game : Game) (artStyle : String)
    (exts : List String) (sg so : Bool) (r0 : Option HttpResponse) (url frm : String) :
    (giaGoogleStage o game artStyle exts sg so r0 url frm).2.countP NetEvent.isUA ≤ 1 ∧
    (giaGoogleStage o game artStyle exts sg so r0 url frm).2.countP NetEvent.isGet ≤ 1 ∧
    (giaGoogleStage o game artStyle exts sg so r0 url frm).2.countP NetEvent.isPost = 0 ∧
    (giaGoogleStage o game artStyle exts sg so r0 url frm).2.countP NetEvent.isAuth
      = 0 := by
  have hz : ∀ (p : NetEvent → Bool),
      (∀ e ∈ (giaGoogleStage o game artStyle exts sg so r0 url frm).2, p e = false) →
      (giaGoogleStage o game artStyle exts sg so r0 url frm).2.countP p = 0 :=
    fun p => countP_zero_of_all
  refine ⟨?_, ?_, hz _ (giaGoogleStage_no_post o game artStyle exts sg so r0 url frm),
    hz _ (giaGoogleStage_no_auth o game artStyle exts sg so r0 url frm)⟩
  · unfold giaGoogleStage
    split
    · rcases hg : (getGoogleImage o game.Name exts).1.2 with _ | err <;>
        simp only [hg]
      · rw [List.countP_append]
        have h1 : (getGoogleImage o game.Name exts).2.countP NetEvent.isUA ≤ 1 :=
          le_trans (List.countP_le_length _) (getGoogleImage_trace_len o game.Name exts)
        have h2 : (giaFinal o (getGoogleImage o game.Name exts).1.1 ("search")).2.countP
            NetEvent.isUA = 0 := by
          rw [giaFinal_snd]
          simp [List.countP_cons, NetEvent.isUA]
        omega
      · exact le_trans (List.countP_le_length _)
          (getGoogleImage_trace_len o game.Name exts)
    · rw [giaFinal_snd]
      simp [List.countP_cons, NetEvent.isUA]
  · unfold giaGoogleStage
    split
    · rcases hg : (getGoogleImage o game.Name exts).1.2 with _ | err <;>
        simp only [hg]
      · rw [List.countP_append]
        have h1 : (getGoogleImage o game.Name exts).2.countP NetEvent.isGet = 0 :=
          countP_zero_of_all
            (fun e he => not_get_of_ua (getGoogleImage_trace_ua o game.Name exts e he))
        have h2 : (giaFinal o (getGoogleImage o game.Name exts).1.1 ("search")).2.countP
            NetEvent.isGet ≤ 1 := by
          rw [giaFinal_snd]
          simp [List.countP_cons, NetEvent.isGet]
        omega
      · have h1 : (getGoogleImage o game.Name exts).2.countP NetEvent.isGet = 0 :=
          countP_zero_of_all
            (fun e he => not_get_of_ua (getGoogleImage_trace_ua o game.Name exts e he))
        omega
    · rw [giaFinal_snd]
      simp [List.countP_cons, NetEvent.isGet]

/-- Event counts of the metadata-database stage and everything after. -/
theorem giaIGDBStage_counts (o : Oracle) (game : Game) (artStyle : String)
    (exts : List String) (sec cli : String) (sg so : Bool) (r0 : Option HttpResponse)
    (url frm : String) :
    (giaIGDBStage o game artStyle exts sec cli sg so r0 url frm).2.countP
        NetEvent.isUA ≤ 1 ∧
    (giaIGDBStage o game artStyle exts sec cli sg so r0 url frm).2.countP
        NetEvent.isGet ≤ 1 ∧
    (giaIGDBStage o game artStyle exts sec cli sg so r0 url frm).2.countP
        NetEvent.isPost ≤ 4 ∧
    (giaIGDBStage o game artStyle exts sec cli sg so r0 url frm).2.countP
        NetEvent.isAuth = 0 := by
  unfold giaIGDBStage
  split
  · have hiu : (getIGDBImage o game.Name sec cli).2.countP NetEvent.isUA = 0 :=
      countP_zero_of_all
        (fun e he => not_ua_of_post (getIGDBImage_trace_post o game.Name sec cli e he))
    have hig : (getIGDBImage o game.Name sec cli).2.countP NetEvent.isGet = 0 :=
      countP_zero_of_all
        (fun e he => not_get_of_post (getIGDBImage_trace_post o game.Name sec cli e he))
    have hia : (getIGDBImage o game.Name sec cli).2.countP NetEvent.isAuth = 0 :=
      countP_zero_of_all
        (fun e he => not_auth_of_post (getIGDBImage_trace_post o game.Name sec cli e he))
    have hip : (getIGDBImage o game.Name sec cli).2.countP NetEvent.isPost ≤ 4 :=
      le_trans (List.countP_le_length _) (getIGDBImage_trace_len o game.Name sec cli)
    rcases hg : (getIGDBImage o game.Name sec cli).1.2 with _ | err <;> simp only [hg]
    · obtain ⟨g1, g2, g3, g4⟩ := giaGoogleStage_counts o game artStyle exts sg so r0
        ((getIGDBImage o game.Name sec cli).1.1) ("IGDB")
      refine ⟨?_, ?_, ?_, ?_⟩ <;> rw [List.countP_append] <;> omega
    · exact ⟨by omega, by omega, by omega, by omega⟩
  · obtain ⟨g1, g2, g3, g4⟩ := giaGoogleStage_counts o game artStyle exts sg so r0
      url frm
    exact ⟨g1, g2, by omega, g4⟩

/-- Event counts of the community-database stage and everything after. -/
theorem giaSGDBStage_counts (o : Oracle) (game : Game) (artStyle : String)
    (exts : List String) (key sec cli : String) (sg so : Bool)
    (r0 : Option HttpResponse) :
    (giaSGDBStage o game artStyle exts key sec cli sg so r0).2.countP
        NetEvent.isUA ≤ 1 ∧
    (giaSGDBStage o game artStyle exts key sec cli sg so r0).2.countP
        NetEvent.isGet ≤ 1 ∧
    (giaSGDBStage o game artStyle exts key sec cli sg so r0).2.countP
        NetEvent.isPost ≤ 4 ∧
    (giaSGDBStage o game artStyle exts key sec cli sg so r0).2.countP
        NetEvent.isAuth ≤ 6 := by
  unfold giaSGDBStage
  dsimp only
  split
  · have hsu : (getSteamGridDBImage o game exts key).2.countP NetEvent.isUA = 0 :=
      countP_zero_of_all (fun e he =>
        not_ua_of_auth (getSteamGridDBImage_trace_auth o game exts key e he))
    have hsg2 : (getSteamGridDBImage o game exts key).2.countP NetEvent.isGet = 0 :=
      countP_zero_of_all (fun e he =>
        not_get_of_auth (getSteamGridDBImage_trace_auth o game exts key e he))
    have hsp : (getSteamGridDBImage o game exts key).2.countP NetEvent.isPost = 0 :=
      countP_zero_of_all (fun e he =>
        not_post_of_auth (getSteamGridDBImage_trace_auth o game exts key e he))
    have hsa : (getSteamGridDBImage o game exts key).2.countP NetEvent.isAuth ≤ 6 :=
      le_trans (List.countP_le_length _) (getSteamGridDBImage_trace_len o game exts key)
    rcases hg : (getSteamGridDBImage o game exts key).1.2 with _ | err <;> simp only [hg]
    · obtain ⟨g1, g2, g3, g4⟩ := giaIGDBStage_counts o game artStyle exts sec cli sg so
        r0 ((getSteamGridDBImage o game exts key).1.1) ("SteamGridDB")
      refine ⟨?_, ?_, ?_, ?_⟩ <;> rw [List.countP_append] <;> omega
    · exact ⟨by omega, by omega, by omega, by omega⟩
  · obtain ⟨g1, g2, g3, g4⟩ := giaIGDBStage_counts o game artStyle exts sec cli sg so
      r0 ("") ("steam server")
    exact ⟨g1, g2, g3, by omega⟩

/-- Claim C6 counterexample: when the community database answers a
parseable response with no usable result, the loop body falls through and
runs again — the resolution issues the *identical* authorized request
twice, so the provider's lookup sequence is executed a second time and an
HTTP request is repeated within a single resolution. -/
theorem C6_counterexample :
    (getSteamGridDBImage oracleC6 gameA extsBanner "k").2
      = [NetEvent.getAuth (sgdbDirectURL gameA extsBanner) ("Bearer " ++ "k"),
         NetEvent.getAuth (sgdbDirectURL gameA extsBanner) ("Bearer " ++ "k")] ∧
    (getSteamGridDBImage oracleC6 gameA extsBanner "k").1 = ("", none) :=
  ⟨rfl, rfl⟩

/-- Claim C6 (amended): within one resolution the community-database
lookup sequence is executed at most twice — the `for i := 0; i < 3; i += 2`
loop runs its body (which never reads `i`) up to two times, a second time
only after a fall-through — while the other providers are attempted at
most once: the whole resolver trace contains at most one web-search
request, at most four metadata-database POSTs (one token exchange plus one
query per `igdbPostRequest`, at most two such calls in the single IGDB
attempt), at most six community-database requests (three per loop pass),
and at most three plain GETs (two primary probes and one final
download). -/
theorem C6_retry_bounds (o : Oracle) (game : Game) (artStyle : String)
    (exts : List String) (skipSteam : Bool) (key sec cli : String) (sg om so : Bool) :
    ((getSteamGridDBImage o game exts key).2 = (sgdbIteration o game exts key).2 ∨
      (getSteamGridDBImage o game exts key).2
        = (sgdbIteration o game exts key).2 ++ (sgdbIteration o game exts key).2) ∧
    (getImageAlternatives o game artStyle exts skipSteam key sec cli sg om
        so).2.countP NetEvent.isUA ≤ 1 ∧
    (getImageAlternatives o game artStyle exts skipSteam key sec cli sg om
        so).2.countP NetEvent.isPost ≤ 4 ∧
    (getImageAlternatives o game artStyle exts skipSteam key sec cli sg om
        so).2.countP NetEvent.isAuth ≤ 6 ∧
    (getImageAlternatives o game artStyle exts skipSteam key sec cli sg om
        so).2.countP NetEvent.isGet ≤ 3 := by
  constructor
  · unfold getSteamGridDBImage
    rcases hit : sgdbIteration o game exts key with ⟨r, ev⟩
    rcases r with _ | r
    · exact Or.inr rfl
    · exact Or.inl rfl
  · obtain ⟨gets, rest, htr, hlen, hget, hrest⟩ :=
      gia_trace_parts o game artStyle exts skipSteam key sec cli sg om so
    have hgu : gets.countP NetEvent.isUA = 0 :=
      countP_zero_of_all (fun e he => not_ua_of_get (hget e he))
    have hgp : gets.countP NetEvent.isPost = 0 :=
      countP_zero_of_all (fun e he => not_post_of_get (hget e he))
    have hga : gets.countP NetEvent.isAuth = 0 :=
      countP_zero_of_all (fun e he => not_auth_of_get (hget e he))
    have hgg : gets.countP NetEvent.isGet ≤ 2 :=
      le_trans (List.countP_le_length _) hlen
    rcases hrest with hrest | ⟨r0, hrest⟩
    · subst hrest
      rw [htr]
      simp only [List.append_nil]
      exact ⟨by omega, by omega, by omega, by omega⟩
    · obtain ⟨s1, s2, s3, s4⟩ :=
        giaSGDBStage_counts o game artStyle exts key sec cli sg so r0
      rw [← hrest] at s1 s2 s3 s4
      rw [htr]
      refine ⟨?_, ?_, ?_, ?_⟩ <;> rw [List.countP_append] <;> omega

/-- Claim C9 counterexample: the metadata-database transport succeeds and
delivers the body "IGDBBODY", which fails to parse — yet `getIGDBImage`
returns the benign empty result `("", nil)` instead of surfacing an
error. -/
theorem C9_counterexample :
    oracleC9.unmarshalIGDBGames "IGDBBODY" = .error ("malformed games response") ∧
    (getIGDBImage oracleC9 "Portal" "sec" "cli").1 = ("", none) :=
  ⟨rfl, rfl⟩

/-- Claim C9 (amended): a malformed community-database body aborts the
attempt with an error — the grid-response unmarshal error itself, or the
fixed message for a malformed autocomplete response — while a malformed
metadata-database body (games or covers response) is converted into the
benign empty result `("", nil)`, not an error. -/
theorem C9_malformed_bodies (o : Oracle) (g : Game) (exts : List String)
    (k : String) (af : Bool) (n s c : String) :
    (∀ (body e : String), o.unmarshalSGDB body = .error e →
      sgdbFinish o af body = some ("", some e)) ∧
    (∀ (b2 e : String),
      (steamGridDBGetRequest o (sgdbAutocompleteURL g exts) k).1 = .ok b2 →
      o.unmarshalSGDBSearch b2 = .error e →
      (sgdbIterationCore o g exts k (.error ("404")) []).1
        = some ("", some sgdbSearchErr)) ∧
    (∀ (b e : String),
      (igdbPostRequest o igdbGameURL (igdbGameBody n) s c).1 = .ok b →
      o.unmarshalIGDBGames b = .error e →
      (getIGDBImage o n s c).1 = ("", none)) ∧
    (∀ (b : String) (g0 : IgdbGame) (gs : List IgdbGame) (b2 e : String),
      (igdbPostRequest o igdbGameURL (igdbGameBody n) s c).1 = .ok b →
      o.unmarshalIGDBGames b = .ok (g0 :: gs) →
      (g0.cover == 0) = false →
      (igdbPostRequest o igdbCoverURL (igdbCoverBody g0.cover) s c).1 = .ok b2 →
      o.unmarshalIGDBCovers b2 = .error e →
      (getIGDBImage o n s c).1 = ("", none)) := by
  refine ⟨?_, ?_, ?_, ?_⟩
  · intro body e h
    unfold sgdbFinish
    simp [h]
  · intro b2 e hreq hum
    unfold sgdbIterationCore sgdbSearchPhase
    simp [hreq, hum]
  · intro b e hq hum
    unfold getIGDBImage
    simp [hq, hum]
  · intro b g0 gs b2 e hq1 hum1 hc0 hq2 hum2
    unfold getIGDBImage
    simp [hq1, hum1, hc0, hq2, hum2]

/-- Witness for the amended C9 at concrete collaborators: a malformed grid
body, a malformed autocomplete body, a malformed games body and a
malformed covers body. -/
theorem C9_malformed_bodies_witness :
    sgdbFinish baseOracle false "B" = some ("", some ("unmarshal error")) ∧
    (sgdbIterationCore oracleC6 gameA extsBanner "k" (.error ("404")) []).1
      = some ("", some sgdbSearchErr) ∧
    (getIGDBImage oracleC9 "Portal" "sec" "cli").1 = ("", none) ∧
    (getIGDBImage oracleC9b "Portal" "sec" "cli").1 = ("", none) :=
  ⟨(C9_malformed_bodies baseOracle gameA extsBanner "k" false "Portal" "sec" "cli").1
      "B" "unmarshal error" (by rfl),
    (C9_malformed_bodies oracleC6 gameA extsBanner "k" false "Portal" "sec" "cli").2.1
      "EMPTY" "unmarshal error" (by rfl) (by rfl),
    (C9_malformed_bodies oracleC9 gameA extsBanner "k" false "Portal" "sec" "cli").2.2.1
      "IGDBBODY" "malformed games response" (by rfl) (by rfl),
    (C9_malformed_bodies oracleC9b gameA extsBanner "k" false "Portal" "sec"
        "cli").2.2.2 "IGDBBODY" { id := 5, cover := 7, name := "Portal" } [] "IGDBBODY"
      "malformed covers response" (by rfl) (by rfl) (by decide) (by rfl) (by rfl)⟩

/-- When the resolver produced a live response with no error,
`DownloadImage` proceeds with the post-download processing of that
response. -/
theorem DownloadImage_body_of (o : Oracle) (gd : String) (game : Game)
    (artStyle : String) (exts : List String) (skipSteam : Bool) (key sec cli : String)
    (sg om so : Bool) (resp : HttpResponse) (frm : String)
    (hga : (getImageAlternatives o game artStyle exts skipSteam key sec cli sg om
        so).1 = (some resp, frm, none)) :
    (DownloadImage o gd game artStyle exts skipSteam key sec cli sg om so).1
      = downloadImageBody o game artStyle frm resp := by
  unfold DownloadImage
  have h1 : (getImageAlternatives o game artStyle exts skipSteam key sec cli sg om
      so).1.1 = some resp := by rw [hga]
  have h2 : (getImageAlternatives o game artStyle exts skipSteam key sec cli sg om
      so).1.2.2 = none := by rw [hga]
  have h3 : (getImageAlternatives o game artStyle exts skipSteam key sec cli sg om
      so).1.2.1 = frm := by rw [hga]
  simp [h1, h2, h3]

/-- Claim C7: with detected width `w` and height `h`, a `Banner` candidate
with `w < h` and a `Cover` candidate with `w > h` are rejected with the
benign not-found result (the already-derived extension remains written);
`Hero` and `Logo` candidates are accepted whatever the detected size; and
a `Cover` candidate whose detected size is not landscape — such as the
600x900 WEBP of the witness — is accepted with exactly the detected
dimensions produced by the size detection. -/
theorem C7_aspect_policy (o : Oracle) (gd : String) (game : Game) (artStyle : String)
    (exts : List String) (skipSteam : Bool) (key sec cli : String) (sg om so : Bool) :
    ∀ (resp : HttpResponse) (frm : String) (w h : Nat) (e0 : String),
      (getImageAlternatives o game artStyle exts skipSteam key sec cli sg om so).1
        = (some resp, frm, none) →
      deriveExtRaw resp.contentType (filepathExt resp.urlPath) = some e0 →
      detectSize o resp.contentType (readBody resp) = .ok (w, h) →
      ((artStyle = "Banner" → w < h →
        (DownloadImage o gd game artStyle exts skipSteam key sec cli sg om so).1
          = some ({ game with ImageExt := extRewrite e0 }, ("", none))) ∧
       (artStyle = "Cover" → h < w →
        (DownloadImage o gd game artStyle exts skipSteam key sec cli sg om so).1
          = some ({ game with ImageExt := extRewrite e0 }, ("", none))) ∧
       (artStyle = "Hero" ∨ artStyle = "Logo" →
        (DownloadImage o gd game artStyle exts skipSteam key sec cli sg om so).1
          = some ({ game with
              ImageExt := extRewrite e0
              ImageSource := frm
              CleanImageBytes := some (readBody resp) }, (frm, none))) ∧
       (artStyle = "Cover" → ¬ h < w →
        (DownloadImage o gd game artStyle exts skipSteam key sec cli sg om so).1
          = some ({ game with
              ImageExt := extRewrite e0
              ImageSource := frm
              CleanImageBytes := some (readBody resp) }, (frm, none)))) := by
  intro resp frm w h e0 hga hext hdet
  rw [DownloadImage_body_of o gd game artStyle exts skipSteam key sec cli sg om so
    resp frm hga]
  unfold downloadImageBody
  rw [hext]
  dsimp only
  rw [hdet]
  refine ⟨?_, ?_, ?_, ?_⟩
  · intro hsty hwh
    simp [hsty, hwh]
  · intro hsty hwh
    simp [hsty, hwh]
  · intro hsty
    rcases hsty with hsty | hsty <;> simp [hsty]
  · intro hsty hwh
    simp [hsty, hwh]

/-- Witness for C7: a WEBP Cover candidate with detected size 600x900 is
accepted with exactly those dimensions, and the same payload under the
Banner style (600 < 900) is rejected as not-found. -/
theorem C7_aspect_policy_witness :
    detectSize oracleW7 "image/webp" "WEBPBYTES" = .ok (600, 900) ∧
    (DownloadImage oracleW7 "dir" gameA "Cover" extsCover false "" "" "" true false
        false).1
      = some ({ gameA with
          ImageExt := ".webp"
          ImageSource := "steam server"
          CleanImageBytes := some ("WEBPBYTES") }, ("steam server", none)) ∧
    (DownloadImage oracleW7b "dir" gameA "Banner" extsBanner false "" "" "" true false
        false).1
      = some ({ gameA with ImageExt := ".webp" }, ("", none)) :=
  ⟨rfl,
    (C7_aspect_policy oracleW7 "dir" gameA "Cover" extsCover false "" "" "" true false
        false (resp200 "image/webp" "" "WEBPBYTES") "steam server" 600 900 ".webp"
        (by rfl) (by rfl) (by rfl)).2.2.2 rfl (by decide),
    (C7_aspect_policy oracleW7b "dir" gameA "Banner" extsBanner false "" "" "" true
        false false (resp200 "image/webp" "" "WEBPB") "steam server" 600 900 ".webp"
        (by rfl) (by rfl) (by rfl)).1 rfl (by decide)⟩

/-- Whatever the outcome of size detection and validation, a non-panicking
run of the post-download processing stores exactly the rewritten derived
extension. -/
theorem downloadImageBody_ext (o : Oracle) (game : Game) (artStyle frm : String)
    (resp : HttpResponse) (g2 : Game) (r : String × Option String) (e0 : String)
    (hext : deriveExtRaw resp.contentType (filepathExt resp.urlPath) = some e0)
    (hbody : downloadImageBody o game artStyle frm resp = some (g2, r)) :
    g2.ImageExt = extRewrite e0 := by
  unfold downloadImageBody at hbody
  rw [hext] at hbody
  dsimp only at hbody
  rcases hdet : detectSize o resp.contentType (readBody resp) with e | wh <;>
    rw [hdet] at hbody
  · simp at hbody
    rw [← hbody.1]
  · dsimp only at hbody
    split at hbody
    · simp at hbody
      rw [← hbody.1]
    · split at hbody
      · simp at hbody
        rw [← hbody.1]
      · simp at hbody
        rw [← hbody.1]

/-- Claim C8: for every download that proceeds past the resolver, the
stored extension is derived from the content-type subtype (the element
after the first slash) when the content type is non-empty, otherwise from
the URL path extension when non-empty, otherwise from the fixed default
"jpg"; and the only rewrites applied afterwards are `.jpeg → .jpg` and
`.octet-stream → .png`. -/
theorem C8_extension_normalization (o : Oracle) (gd : String) (game : Game)
    (artStyle : String) (exts : List String) (skipSteam : Bool) (key sec cli : String)
    (sg om so : Bool) :
    ∀ (resp : HttpResponse) (frm : String) (g2 : Game) (r : String × Option String),
      (getImageAlternatives o game artStyle exts skipSteam key sec cli sg om so).1
        = (some resp, frm, none) →
      (DownloadImage o gd game artStyle exts skipSteam key sec cli sg om so).1
        = some (g2, r) →
      ((resp.contentType ≠ "" →
        ∀ sub : List Char, (splitOnChar '/' resp.contentType.toList).get? 1 = some sub →
          g2.ImageExt = extRewrite ("." ++ String.mk sub)) ∧
       (resp.contentType = "" → filepathExt resp.urlPath ≠ "" →
          g2.ImageExt = extRewrite (filepathExt resp.urlPath)) ∧
       (resp.contentType = "" → filepathExt resp.urlPath = "" →
          g2.ImageExt = extRewrite ("jpg")) ∧
       extRewrite (".jpeg") = ".jpg" ∧ extRewrite (".octet-stream") = ".png" ∧
       (∀ s2 : String, s2 ≠ ".jpeg" → s2 ≠ ".octet-stream" → extRewrite s2 = s2)) := by
  intro resp frm g2 r hga hdi
  rw [DownloadImage_body_of o gd game artStyle exts skipSteam key sec cli sg om so
    resp frm hga] at hdi
  refine ⟨?_, ?_, ?_, rfl, rfl, ?_⟩
  · intro hct sub hsub
    have hext : deriveExtRaw resp.contentType (filepathExt resp.urlPath)
        = some ("." ++ String.mk sub) := by
      unfold deriveExtRaw
      simp at hsub
      simp [hct, hsub]
    exact downloadImageBody_ext o game artStyle frm resp g2 r _ hext hdi
  · intro hct hurl
    have hext : deriveExtRaw resp.contentType (filepathExt resp.urlPath)
        = some (filepathExt resp.urlPath) := by
      unfold deriveExtRaw
      simp [hct, hurl]
    exact downloadImageBody_ext o game artStyle frm resp g2 r _ hext hdi
  · intro hct hurl
    have hext : deriveExtRaw resp.contentType (filepathExt resp.urlPath)
        = some ("jpg") := by
      unfold deriveExtRaw
      simp [hct, hurl]
    exact downloadImageBody_ext o game artStyle frm resp g2 r _ hext hdi
  · intro s2 h1 h2
    unfold extRewrite
    simp [h1, h2]

/-- Witness for C8: the octet-stream quirk at the concrete reject run —
the stored extension becomes ".png". -/
theorem C8_extension_normalization_witness :
    ({ gameC10 with ImageExt := ".png" } : Game).ImageExt
      = extRewrite ("." ++ String.mk ['o', 'c', 't', 'e', 't', '-', 's', 't', 'r',
          'e', 'a', 'm']) :=
  (C8_extension_normalization oracleC10 "dir" gameC10 "Cover" extsCover false "" "" ""
      true false false (resp200 "image/octet-stream" "" "BYTES") "steam server"
      ({ gameC10 with ImageExt := ".png" }) ("", none) (by rfl) (by rfl)).1
    (by decide) ['o', 'c', 't', 'e', 't', '-', 's', 't', 'r', 'e', 'a', 'm'] (by rfl)

theorem giaFinal_some_label (o : Oracle) (u f : String) (r : HttpResponse)
    (h : (giaFinal o u f).1.1 = some r) : (giaFinal o u f).1.2.1 = f := by
  unfold giaFinal at h ⊢
  by_cases hc : ((tryDownload o u).1.2.isNone && (tryDownload o u).1.1.isSome) = true <;>
    simp [hc] at h ⊢

theorem giaGoogleStage_some_label (o : Oracle) (game : Game) (artStyle : String)
    (exts : List String) (sg so : Bool) (url frm : String) (r : HttpResponse)
    (hf : frm ≠ "")
    (h : (giaGoogleStage o game artStyle exts sg so none url frm).1.1 = some r) :
    (giaGoogleStage o game artStyle exts sg so none url frm).1.2.1 ≠ "" := by
  unfold giaGoogleStage at h ⊢
  split at h <;> split
  · rcases hg : (getGoogleImage o game.Name exts).1.2 with _ | err <;>
      simp only [hg] at h ⊢
    · have := giaFinal_some_label o _ ("search") r h
      rw [this]
      decide
    · simp at h
  · rename_i h1 h2
    exact absurd h1 h2
  · rename_i h1 h2
    exact absurd h2 h1
  · have := giaFinal_some_label o url frm r h
    rw [this]
    exact hf

theorem giaIGDBStage_some_label (o : Oracle) (game : Game) (artStyle : String)
    (exts : List String) (sec cli : String) (sg so : Bool) (url frm : String)
    (r : HttpResponse) (hf : frm ≠ "")
    (h : (giaIGDBStage o game artStyle exts sec cli sg so none url frm).1.1 = some r) :
    (giaIGDBStage o game artStyle exts sec cli sg so none url frm).1.2.1 ≠ "" := by
  unfold giaIGDBStage at h ⊢
  split at h <;> split
  · rcases hg : (getIGDBImage o game.Name sec cli).1.2 with _ | err <;>
      simp only [hg] at h ⊢
    · exact giaGoogleStage_some_label o game artStyle exts sg so _ ("IGDB")
        r (by decide) h
    · simp at h
  · rename_i h1 h2
    exact absurd h1 h2
  · rename_i h1 h2
    exact absurd h2 h1
  · exact giaGoogleStage_some_label o game artStyle exts sg so url frm r hf h

theorem giaSGDBStage_some_label (o : Oracle) (game : Game) (artStyle : String)
    (exts : List String) (key sec cli : String) (sg so : Bool) (r : HttpResponse)
    (h : (giaSGDBStage o game artStyle exts key sec cli sg so none).1.1 = some r) :
    (giaSGDBStage o game artStyle exts key sec cli sg so none).1.2.1 ≠ "" := by
  by_cases hk : (key == "") = true
  · rw [giaSGDBStage_skip_key o game artStyle exts key sec cli sg so none hk] at h ⊢
    exact giaIGDBStage_some_label o game artStyle exts sec cli sg so ("")
      ("steam server") r (by decide) h
  · have hk2 : (key == "") = false := by simpa using hk
    rcases hg : (getSteamGridDBImage o game exts key).1.2 with _ | err
    · rw [giaSGDBStage_run_ok o game artStyle exts key sec cli sg so none hk2 hg]
        at h ⊢
      dsimp only at h ⊢
      exact giaIGDBStage_some_label o game artStyle exts sec cli sg so _
        ("SteamGridDB") r (by decide) h
    · rw [giaSGDBStage_run_err o game artStyle exts key sec cli sg so none hk2 err hg]
        at h
      simp at h

theorem gia_some_label (o : Oracle) (game : Game) (artStyle : String)
    (exts : List String) (skipSteam : Bool) (key sec cli : String) (sg om so : Bool)
    (r : HttpResponse)
    (h : (getImageAlternatives o game artStyle exts skipSteam key sec cli sg om
        so).1.1 = some r) :
    (getImageAlternatives o game artStyle exts skipSteam key sec cli sg om
        so).1.2.1 ≠ "" := by
  by_cases hgd : (!skipSteam && !so) = true
  · by_cases h1 : ((tryDownload o (akamaiURL game.ID (exts.getD 2 ""))).1.2.isNone &&
        (tryDownload o (akamaiURL game.ID (exts.getD 2 ""))).1.1.isSome) = true
    · rw [Bool.and_eq_true] at h1
      obtain ⟨hA, hB⟩ := h1
      obtain ⟨r1, hr⟩ := Option.isSome_iff_exists.mp hB
      have hpair : (tryDownload o (akamaiURL game.ID (exts.getD 2 ""))).1
          = (some r1, none) :=
        Prod.ext_iff.mpr ⟨hr, Option.isNone_iff_eq_none.mp hA⟩
      rw [gia_primary1_hit o game artStyle exts skipSteam key sec cli sg om so hgd r1
        hpair] at h ⊢
      rcases hom : om <;> simp [hom] at h ⊢
    · have h1n := tryDownload_fst_none o (akamaiURL game.ID (exts.getD 2 ""))
        (by simpa using h1)
      by_cases h2 : ((tryDownload o (steamCdnURL game.ID (exts.getD 2 ""))).1.2.isNone
          && (tryDownload o (steamCdnURL game.ID (exts.getD 2 ""))).1.1.isSome)
          = true
      · rw [Bool.and_eq_true] at h2
        obtain ⟨hA, hB⟩ := h2
        obtain ⟨r2, hr⟩ := Option.isSome_iff_exists.mp hB
        have hpair : (tryDownload o (steamCdnURL game.ID (exts.getD 2 ""))).1
            = (some r2, none) :=
          Prod.ext_iff.mpr ⟨hr, Option.isNone_iff_eq_none.mp hA⟩
        rw [gia_primary2_hit o game artStyle exts skipSteam key sec cli sg om so hgd
          h1n r2 hpair] at h ⊢
        rcases hom : om <;> simp [hom] at h ⊢
      · have h2n := tryDownload_fst_none o (steamCdnURL game.ID (exts.getD 2 ""))
          (by simpa using h2)
        rw [gia_fall o game artStyle exts skipSteam key sec cli sg om so hgd h1n h2n]
          at h ⊢
        dsimp only at h ⊢
        exact giaSGDBStage_some_label o game artStyle exts key sec cli sg so r h
  · rw [gia_steam_off o game artStyle exts skipSteam key sec cli sg om so
      (by simpa using hgd)] at h ⊢
    exact giaSGDBStage_some_label o game artStyle exts key sec cli sg so r h

/-- Claim C10: `DownloadImage` writes `CleanImageBytes` and `ImageSource`
only when a downloaded candidate passes validation — on every return whose
source-label result is empty (every benign not-found and every error
return), both fields hold exactly their entry values — while `ImageExt`
may already have been overwritten before validation rejects the image, as
the concrete rejecting run of the second conjunct shows. -/
theorem C10_frame (o : Oracle) (gd : String) (game : Game) (artStyle : String)
    (exts : List String) (skipSteam : Bool) (key sec cli : String) (sg om so : Bool) :
    (∀ (g2 : Game) (err2 : Option String),
      (DownloadImage o gd game artStyle exts skipSteam key sec cli sg om so).1
        = some (g2, ("", err2)) →
      g2.CleanImageBytes = game.CleanImageBytes ∧ g2.ImageSource = game.ImageSource) ∧
    ((DownloadImage oracleC10 "dir" gameC10 "Cover" extsCover false "" "" "" true
        false false).1 = some ({ gameC10 with ImageExt := ".png" }, ("", none)) ∧
      gameC10.ImageExt ≠ ".png" ∧
      ({ gameC10 with ImageExt := ".png" } : Game).CleanImageBytes
          = gameC10.CleanImageBytes ∧
      ({ gameC10 with ImageExt := ".png" } : Game).ImageSource
          = gameC10.ImageSource) := by
  refine ⟨?_, by rfl, by decide, rfl, rfl⟩
  intro g2 err2 hdi
  rcases hga : (getImageAlternatives o game artStyle exts skipSteam key sec cli sg om
      so).1 with ⟨ro, frm, err⟩
  have h1 : (getImageAlternatives o game artStyle exts skipSteam key sec cli sg om
      so).1.1 = ro := by rw [hga]
  have h2 : (getImageAlternatives o game artStyle exts skipSteam key sec cli sg om
      so).1.2.2 = err := by rw [hga]
  have h3 : (getImageAlternatives o game artStyle exts skipSteam key sec cli sg om
      so).1.2.1 = frm := by rw [hga]
  rcases ro with _ | resp
  · unfold DownloadImage at hdi
    simp only [h1, h2] at hdi
    simp at hdi
    rw [← hdi.1]
    exact ⟨rfl, rfl⟩
  · rcases err with _ | e
    · -- live response, no error: the post-download body ran
      have hfrm : frm ≠ "" := by
        have := gia_some_label o game artStyle exts skipSteam key sec cli sg om so
          resp (by rw [hga])
        rw [h3] at this
        exact this
      rw [DownloadImage_body_of o gd game artStyle exts skipSteam key sec cli sg om so
        resp frm (by rw [hga])] at hdi
      unfold downloadImageBody at hdi
      rcases hext : deriveExtRaw resp.contentType (filepathExt resp.urlPath)
        with _ | e0 <;> rw [hext] at hdi
      · simp at hdi
      · dsimp only at hdi
        rcases hdet : detectSize o resp.contentType (readBody resp) with e | wh <;>
          rw [hdet] at hdi <;> dsimp only at hdi
        · simp at hdi
          rw [← hdi.1]
          exact ⟨rfl, rfl⟩
        · split at hdi
          · simp at hdi
            rw [← hdi.1]
            exact ⟨rfl, rfl⟩
          · split at hdi
            · simp at hdi
              rw [← hdi.1]
              exact ⟨rfl, rfl⟩
            · simp at hdi
              exact absurd hdi.2.1 hfrm
    · unfold DownloadImage at hdi
      simp only [h1, h2] at hdi
      simp at hdi
      rw [← hdi.1]
      exact ⟨rfl, rfl⟩

/-- Witness for C10 at the concrete rejecting run: the mutated game of
that run keeps the entry payload and source label. -/
theorem C10_frame_witness :
    ({ gameC10 with ImageExt := ".png" } : Game).CleanImageBytes
        = gameC10.CleanImageBytes ∧
    ({ gameC10 with ImageExt := ".png" } : Game).ImageSource = gameC10.ImageSource :=
  (C10_frame oracleC10 "dir" gameC10 "Cover" extsCover false "" "" "" true false
      false).1 ({ gameC10 with ImageExt := ".png" }) none (by rfl)
